import Mathlib

/-!
# Chat service: validator, stream-creation and message-send workflows

A shallow embedding of the request validator (`internal/pkg/validator`), of the
HTTP handlers (`internal/rest/handler.go`), of the token generator
(`internal/pkg/jwt`), of the membership queries, the message insert, the message
page query and the subscription insert of the persistence adapter
(`internal/repository/postgres/repo.go`), and of the connection dispatch set up
in `cmd/service/main.go`.

Go strings that reach this code come out of the JSON decoder or the
authentication layer and are valid UTF-8, so they are modelled by `String`
(a sequence of Unicode code points); `len([]rune(s))` is then `s.length`.
A Go `error` is modelled by `Option String` (`none` is `nil`, `some m` carries
the text of `err.Error()`).
-/

namespace Chat

/-! ## Go standard library pieces used by the validator -/

namespace unicode

/-- Go `unicode.IsSpace`: the Latin-1 spaces `\t \n \v \f \r`, space, U+0085,
U+00A0, and the code points with the Unicode White_Space property. -/
def IsSpace (c : Char) : Bool :=
  let n := c.toNat
  (0x09 ≤ n && n ≤ 0x0D) || n == 0x20 || n == 0x85 || n == 0xA0 ||
  n == 0x1680 || (0x2000 ≤ n && n ≤ 0x200A) || n == 0x2028 || n == 0x2029 ||
  n == 0x202F || n == 0x205F || n == 0x3000

end unicode

namespace strings

/-- Go `strings.TrimSpace`: the string without its leading and trailing white space. -/
def TrimSpace (s : String) : String :=
  ⟨((s.data.dropWhile unicode.IsSpace).reverse.dropWhile unicode.IsSpace).reverse⟩

end strings

/-- Number of runes of a string: `len([]rune(s))`. -/
def runeCount (s : String) : Nat := s.length

/-! ## Data model (`internal/model`, request types of `internal/generated`) -/

namespace model

/-- The constant `model.PrivateStreamType`. -/
def PrivateStreamType : String := "private"

/-- The constant `model.TextMessageType`. -/
def TextMessageType : String := "text"

end model

/-- A participant of a create-stream request: `api.ChatUser` (`Metadata` is a `*string`). -/
structure ChatUser where
  Id : String
  Metadata : Option String
deriving DecidableEq, Repr

/-- The request `api.CreateStreamRequest`; the field `Type` is written `Type_`. -/
structure CreateStreamRequest where
  Type_ : String
  Users : List ChatUser
  ChatMetadata : String
  CreatorMetadata : String
deriving DecidableEq, Repr

/-- The request `api.SendMessageRequest` (`ParentId` and `RootId` are `*string`). -/
structure SendMessageRequest where
  Content : String
  MessageType : String
  ParentId : Option String
  RootId : Option String
deriving DecidableEq, Repr

/-- The query parameters `api.GetStreamRecentMessagesParams`: `Offset` is a
`*string`; `Limit` is a pointer to a Go integer that the handler converts with
`int32(...)`, here an integer of any size the wider Go types hold. -/
structure GetStreamRecentMessagesParams where
  Offset : Option String
  Limit : Option Int
deriving DecidableEq, Repr

/-- The request `api.GetBatchSubscribeTokensRequest`. -/
structure GetBatchSubscribeTokensRequest where
  StreamIds : List String
deriving DecidableEq, Repr

/-- An entry `api.StreamSubscription` of the batch response. -/
structure StreamSubscription where
  StreamId : String
  Token : String
  ExpiresAt : Int
  Channel : String
deriving DecidableEq, Repr

/-- A message `api.Message` of a response (`UpdatedAt`, `RootUuid` and
`ParentUuid` are `*string`). -/
structure ApiMessage where
  Uuid : String
  Content : String
  SentAt : String
  UpdatedAt : Option String
  RootUuid : Option String
  ParentUuid : Option String
deriving DecidableEq, Repr

/-- A stream preview `api.PrivateStream` of a response (`LastMessageContent`,
`AvatarUrl` and `LastMessageTimestamp` are `*string`). -/
structure ApiPrivateStream where
  StreamId : String
  LastMessageContent : Option String
  StreamName : String
  AvatarUrl : Option String
  LastMessageTimestamp : Option String
deriving DecidableEq, Repr

/-- The Go conversion `int32(x)` of an integer: its low 32 bits, read as a
signed number. -/
def int32 (x : Int) : Int :=
  (x + 2147483648) % 4294967296 - 2147483648

/-! ## UUIDs (`github.com/google/uuid`) and time -/

/-- The bytes of the UTF-8 encoding of a code point. -/
def utf8EncodeChar (c : Char) : List Nat :=
  let n := c.toNat
  if n < 0x80 then [n]
  else if n < 0x800 then [0xC0 + n / 64, 0x80 + n % 64]
  else if n < 0x10000 then [0xE0 + n / 4096, 0x80 + (n / 64) % 64, 0x80 + n % 64]
  else [0xF0 + n / 262144, 0x80 + (n / 4096) % 64, 0x80 + (n / 64) % 64, 0x80 + n % 64]

/-- The bytes of a Go string: indexing `s[i]` and `len(s)` work on these. -/
def goBytes (s : String) : List Nat :=
  (s.data.map utf8EncodeChar).flatten

/-- A `uuid.UUID`: an array of 16 bytes. -/
structure UUID where
  bytes : List Nat
deriving DecidableEq, Repr

/-- A `time.Time`, as an instant counted in nanoseconds. -/
structure Time where
  unixNano : Int
deriving DecidableEq, Repr

/-- How a Go call ends: it returns a value or it panics. -/
inductive Completion (α : Type) where
  | returned (a : α)
  | panicked (msg : String)
deriving DecidableEq, Repr

namespace uuid

/-- The table `xvalues` of the library: the value of a hexadecimal digit, in
either case, and no value for any other byte. -/
def xvalue (b : Nat) : Option Nat :=
  if 48 ≤ b ∧ b ≤ 57 then some (b - 48)
  else if 65 ≤ b ∧ b ≤ 70 then some (b - 55)
  else if 97 ≤ b ∧ b ≤ 102 then some (b - 87)
  else none

/-- The helper `xtob`: two hexadecimal digits to a byte. -/
def xtob (x1 x2 : Nat) : Option Nat :=
  match xvalue x1, xvalue x2 with
  | some a, some b => some (a * 16 + b)
  | _, _ => none

/-- Lower-case folding of an ASCII letter. -/
def lowerASCII (b : Nat) : Nat :=
  if 65 ≤ b ∧ b ≤ 90 then b + 32 else b

/-- The tail of `Parse`: `s` holds at least 36 bytes and must have the form
`xxxxxxxx-xxxx-xxxx-xxxx-xxxxxxxxxxxx`. -/
def parseHyphenated (s : List Nat) : Option UUID :=
  if s.getD 8 0 != 45 || s.getD 13 0 != 45 || s.getD 18 0 != 45 || s.getD 23 0 != 45 then
    none
  else
    ([0, 2, 4, 6, 9, 11, 14, 16, 19, 21, 24, 26, 28, 30, 32, 34].mapM
      (fun x => xtob (s.getD x 0) (s.getD (x + 1) 0))).map UUID.mk

/-- The function `uuid.Parse`, `none` standing for its error: the 36-byte
hyphenated form, the same after `urn:uuid:` (compared without case), the same
between two bytes that are not examined, and 32 bare hexadecimal digits. -/
def Parse (str : String) : Option UUID :=
  let s := goBytes str
  if s.length = 36 then parseHyphenated s
  else if s.length = 36 + 9 then
    if (s.take 9).map lowerASCII != goBytes "urn:uuid:" then none
    else parseHyphenated (s.drop 9)
  else if s.length = 36 + 2 then parseHyphenated (s.drop 1)
  else if s.length = 32 then
    ((List.range 16).mapM (fun i => xtob (s.getD (i * 2) 0) (s.getD (i * 2 + 1) 0))).map UUID.mk
  else none

/-- The function `uuid.MustParse`: `Parse`, panicking on its error (the panic
value is abridged to the input). -/
def MustParse (s : String) : Completion UUID :=
  match Parse s with
  | some u => .returned u
  | none => .panicked ("uuid: Parse(" ++ s ++ ")")

/-- A lower-case hexadecimal digit. -/
def hexDigit (n : Nat) : Char :=
  if n < 10 then Char.ofNat (48 + n) else Char.ofNat (87 + n)

/-- Lower-case hexadecimal encoding of bytes (`hex.Encode`). -/
def encodeHex (bs : List Nat) : List Char :=
  (bs.map (fun b => [hexDigit (b / 16), hexDigit (b % 16)])).flatten

end uuid

/-- The method `UUID.String`: the form `xxxxxxxx-xxxx-xxxx-xxxx-xxxxxxxxxxxx`
in lower-case hexadecimal digits. -/
def UUID.String (u : UUID) : String :=
  ⟨uuid.encodeHex (u.bytes.take 4) ++ '-' :: uuid.encodeHex ((u.bytes.drop 4).take 2) ++
    '-' :: uuid.encodeHex ((u.bytes.drop 6).take 2) ++
    '-' :: uuid.encodeHex ((u.bytes.drop 8).take 2) ++
    '-' :: uuid.encodeHex (u.bytes.drop 10)⟩

/-- The zero value of `uuid.UUID`. -/
def UUID.zero : UUID := ⟨List.replicate 16 0⟩

namespace model

/-- The struct `model.StreamMember`. -/
structure StreamMember where
  UserID : String
  Metadata : String
deriving DecidableEq, Repr

/-- The struct `model.StreamMemberParams`. -/
structure StreamMemberParams where
  UserID : String
  Nickname : String
  AvatarURL : String
deriving DecidableEq, Repr

/-- The struct `model.UserSubscription`. -/
structure UserSubscription where
  UserID : String
  Channel : String
deriving DecidableEq, Repr

/-- The struct `model.Message`; the field `Type` is written `Type_`. -/
structure Message where
  ID : UUID
  StreamID : UUID
  SenderID : UUID
  Type_ : String
  Content : String
  RootID : Option UUID
  ParentID : Option UUID
  SentAt : Time
  UpdatedAt : Option Time
deriving DecidableEq, Repr

/-- The struct `model.PrivateStreamPreview` (`LastMessageContent` and
`LastMessageTimestamp` are pointers). -/
structure PrivateStreamPreview where
  StreamID : String
  LastMessageContent : Option String
  StreamName : String
  AvatarURL : String
  LastMessageTimestamp : Option Time
deriving DecidableEq, Repr

/-- The zero value of `model.Message` (`var message model.Message`). -/
def Message.zero : Message :=
  ⟨UUID.zero, UUID.zero, UUID.zero, "", "", none, none, ⟨0⟩, none⟩

end model

/-! ## Validator (`internal/pkg/validator/validator.go`) -/

namespace validator

/-- Insertion of a key into a Go `map[string]struct{}`, kept as a list of its
distinct keys: a key already present leaves the map as it is. -/
def mapInsert (m : List String) (k : String) : List String :=
  if k ∈ m then m else m ++ [k]

/-- The loop of `ValidateCreateStream` that fills `uniqueUsers`, started from the map `m`. -/
def collectUsers (m : List String) (users : List ChatUser) (creatorID : String) : List String :=
  users.foldl
    (fun acc user =>
      if strings.TrimSpace user.Id != "" && user.Id != creatorID then mapInsert acc user.Id
      else acc)
    m

/-- The map `uniqueUsers` of `ValidateCreateStream` after its loop. -/
def uniqueUsers (users : List ChatUser) (creatorID : String) : List String :=
  collectUsers [] users creatorID

/-- The method `Validator.ValidateCreateStream`. -/
def ValidateCreateStream (req : CreateStreamRequest) (creatorID : String) : Option String :=
  if strings.TrimSpace req.Type_ == "" then
    some "stream type is required"
  else
    let totalParticipants := (uniqueUsers req.Users creatorID).length + 1
    if req.Type_ == model.PrivateStreamType then
      if totalParticipants != 2 then
        some ("private stream requires exactly 2 participants, got " ++ toString totalParticipants)
      else none
    else
      some ("stream type '" ++ req.Type_ ++ "' is not supported")

/-- The method `Validator.ValidateSendMessage`. -/
def ValidateSendMessage (req : SendMessageRequest) : Option String :=
  if strings.TrimSpace req.Content == "" then
    some "content cannot be empty"
  else if strings.TrimSpace req.MessageType == "" then
    some "message_type is required"
  else if runeCount req.Content > 500 then
    some "content exceeds maximum length of 500 characters"
  else if req.MessageType != model.TextMessageType then
    some ("message type '" ++ req.MessageType ++ "' is not supported yet")
  else none

/-- The other participants of a request: the ids of its users that are not blank
after trimming and differ from the creator, as a finite set. -/
def otherParticipants (users : List ChatUser) (creatorID : String) : Finset String :=
  ((users.map ChatUser.Id).filter
    (fun id => decide (strings.TrimSpace id ≠ "" ∧ id ≠ creatorID))).toFinset

end validator

/-! ## Collaborators of the handlers (`internal/rest/contract.go`)

Every call to a collaborator is recorded, with what it returned, in a trace.
What a collaborator returns may depend on its arguments and on everything that
happened before the call: the functions below take the trace so far. -/

/-- A call made by a handler, with its arguments and its results. -/
inductive Event where
  | GetUserInfoByUUID (userUUID : String) (info : Option model.StreamMemberParams)
      (err : Option String)
  | AddNewUser (userInfo : Option model.StreamMemberParams) (err : Option String)
  | CreateStream (streamType metadata createdBy : String) (id : String) (err : Option String)
  | AddStreamMembers (streamID : String) (members : List model.StreamMember)
      (err : Option String)
  | AddUserSubscriptions (subscriptions : List model.UserSubscription) (err : Option String)
  | IsStreamMember (streamID userID : String) (isMember : Bool) (err : Option String)
  | SaveMessage (message : model.Message) (err : Option String)
  | GetStreamRecentMessages (streamID offset : String) (limit : Int)
      (messages : Option (List model.Message)) (err : Option String)
  | GetPrivateStreams (requesterID : String)
      (streams : Option (List model.PrivateStreamPreview)) (err : Option String)
  | GetUserActiveStreams (userID : String) (streamIDs : List String) (err : Option String)
  | Publish (channel : String) (data : model.Message) (err : Option String)
  | GenerateConnectToken (userID : String) (token : String) (expiresAt : Int)
      (err : Option String)
  | GenerateSubscribeToken (userID streamID : String) (token : String) (expiresAt : Int)
      (err : Option String)
  | TxBegin
  | TxCommit
  | TxRollback
deriving DecidableEq, Repr

/-- The calls made so far, oldest first. -/
abbrev Trace := List Event

/-- The error a recorded call returned, if any. -/
def Event.err : Event → Option String
  | .GetUserInfoByUUID _ _ e => e
  | .AddNewUser _ e => e
  | .CreateStream _ _ _ _ e => e
  | .AddStreamMembers _ _ e => e
  | .AddUserSubscriptions _ e => e
  | .IsStreamMember _ _ _ e => e
  | .SaveMessage _ e => e
  | .GetStreamRecentMessages _ _ _ _ e => e
  | .GetPrivateStreams _ _ e => e
  | .GetUserActiveStreams _ _ e => e
  | .Publish _ _ e => e
  | .GenerateConnectToken _ _ _ e => e
  | .GenerateSubscribeToken _ _ _ _ e => e
  | .TxBegin => none
  | .TxCommit => none
  | .TxRollback => none

/-- A recorded call failed when it returned an error. -/
def Event.failed (e : Event) : Bool := e.err.isSome

/-- The interface `DBRepo`, for the methods the modelled handlers call. -/
structure DBRepo where
  CreateStream : Trace → String → String → String → String × Option String
  AddStreamMembers : Trace → String → List model.StreamMember → Option String
  AddNewUser : Trace → Option model.StreamMemberParams → Option String
  AddUserSubscriptions : Trace → List model.UserSubscription → Option String
  SaveMessage : Trace → model.Message → Option String
  IsStreamMember : Trace → String → String → Bool × Option String
  GetStreamRecentMessages :
    Trace → String → String → Int → Option (List model.Message) × Option String
  GetPrivateStreams :
    Trace → String → Option (List model.PrivateStreamPreview) × Option String
  GetUserActiveStreams : Trace → String → List String × Option String

/-- The interface `UserClient`. -/
structure UserClient where
  GetUserInfoByUUID : Trace → String → Option model.StreamMemberParams × Option String

/-- The interface `CetrifugeClient`. -/
structure CetrifugeClient where
  Publish : Trace → String → model.Message → Option String

/-- The interface `Validator`. -/
structure Validator where
  ValidateCreateStream : CreateStreamRequest → String → Option String
  ValidateSendMessage : SendMessageRequest → Option String

/-- The interface `JWTGenerator`, for the methods the modelled handlers call. -/
structure JWTGenerator where
  GenerateConnectToken : Trace → String → String × Int × Option String
  GenerateSubscribeToken : Trace → String → String → String × Int × Option String

/-- The constructor `validator.New`: the validator of this repository. -/
def validator.New : Validator :=
  ⟨validator.ValidateCreateStream, validator.ValidateSendMessage⟩

/-- What the handlers take from the Go runtime and libraries: `uuid.New()`,
`time.Now()` and `Time.Format(time.RFC3339)`. -/
structure Runtime where
  New : Trace → UUID
  Now : Trace → Time
  Format : Time → String

/-- The struct `Handler`. -/
structure Handler where
  repository : DBRepo
  userClient : UserClient
  centrifugeClient : CetrifugeClient
  validator : Validator
  jwtGenerator : JWTGenerator

/-! ## Responses -/

/-- The JSON value a handler writes. -/
inductive Body where
  | Error (error : String)
  | CreateStreamResponse (Id : String)
  | SendMessageResponse (MessageId SentAt : String)
  | GetStreamSubscribeTokenResponse (Token : String) (ExpiresAt : Int) (Channel : String)
  | GetStreamRecentMessagesResponse (Messages : List ApiMessage)
  | GetBatchSubscribeTokensResponse (Subscriptions : List StreamSubscription)
  | GetPrivateStreamsResponse (Streams : List ApiPrivateStream)
  | GetConnectAccessTokenResponse (Token : String) (ExpiresAt : Int)
  | GetUserActiveStreamsResponse (StreamIds : List String)
deriving DecidableEq, Repr

/-- What a handler writes to its `http.ResponseWriter`. -/
structure Response where
  status : Nat
  body : Body
deriving DecidableEq, Repr

namespace http

/-- The constant `http.StatusOK`. -/
def StatusOK : Nat := 200

/-- The constant `http.StatusBadRequest`. -/
def StatusBadRequest : Nat := 400

/-- The constant `http.StatusForbidden`. -/
def StatusForbidden : Nat := 403

/-- The constant `http.StatusInternalServerError`. -/
def StatusInternalServerError : Nat := 500

end http

/-- The helper `Handler.writeJSON`. -/
def writeJSON (data : Body) (statusCode : Nat) : Response := ⟨statusCode, data⟩

/-- The helper `Handler.writeError`. -/
def writeError (message : String) (statusCode : Nat) : Response :=
  ⟨statusCode, Body.Error message⟩

/-! ## Transaction scope -/

namespace tx

/-- Modelled from the spec: `tx.TxExecute` of package `internal/pkg/tx`, which
is not among the sources. The spec: the scope "wraps a unit-of-work in a
database transaction, [...] commits on success and rolls back on any reported
failure", finalizing with "commit on handler success, rollback on handler error
or panic-equivalent abort". The unit of work runs once; `σ` is the state of the
variables it captures. -/
def TxExecute {σ : Type} (cb : σ → Trace → Completion (Option String) × σ × Trace)
    (s : σ) (t : Trace) : Completion (Option String) × σ × Trace :=
  match cb s (t ++ [Event.TxBegin]) with
  | (.returned none, s1, t1) => (.returned none, s1, t1 ++ [Event.TxCommit])
  | (.returned (some err), s1, t1) => (.returned (some err), s1, t1 ++ [Event.TxRollback])
  | (.panicked msg, s1, t1) => (.panicked msg, s1, t1 ++ [Event.TxRollback])

/-- The marks of a transaction in a trace: its beginning and its end. -/
def isMark : Event → Bool
  | .TxBegin => true
  | .TxCommit => true
  | .TxRollback => true
  | _ => false

/-- A recorded call that changed the database: a successful insert. -/
def isWrite : Event → Bool
  | .AddNewUser _ none => true
  | .CreateStream _ _ _ _ none => true
  | .AddStreamMembers _ _ none => true
  | .AddUserSubscriptions _ none => true
  | .SaveMessage _ none => true
  | _ => false

/-- Modelled from the spec: what a transaction does to the writes made inside
it ("commits on success and rolls back on any reported failure"; package
`internal/pkg/tx` and the repository's `WithTx` are not among the sources).
The state is the list of persistent writes and, inside a transaction, the
writes it holds back: a commit makes them persistent, a rollback drops them, a
write outside a transaction is persistent at once. -/
def step (st : List Event × Option (List Event)) (e : Event) :
    List Event × Option (List Event) :=
  match e, st with
  | .TxBegin, (done, _) => (done, some [])
  | .TxCommit, (done, some held) => (done ++ held, none)
  | .TxCommit, (done, none) => (done, none)
  | .TxRollback, (done, _) => (done, none)
  | e, (done, some held) => (done, some (if isWrite e then held ++ [e] else held))
  | e, (done, none) => (if isWrite e then done ++ [e] else done, none)

/-- Modelled from the spec: the transaction state after a trace, see `step`. -/
def scan (t : Trace) : List Event × Option (List Event) :=
  t.foldl step ([], none)

/-- Modelled from the spec: the persistent writes after a trace, which
determine the persistent state. -/
def persistent (t : Trace) : List Event := (scan t).1

end tx

/-! ## Handlers (`internal/rest/handler.go`)

A handler takes the decoded request body (`none` when `Decode` fails), the value
stored under `config.KeyUUID` in the request context (`none` when it is absent
or not a string) and the trace so far; it ends with a response or a panic, and
the trace extended by the calls it made. Logging is left out. -/

namespace CreateStream

/-- The slice `allUserIDs` after its loop. -/
def allUserIDs (req : CreateStreamRequest) (creatorID : String) : List String :=
  req.Users.foldl
    (fun acc user => if user.Id != "" && user.Id != creatorID then acc ++ [user.Id] else acc)
    [creatorID]

/-- The loop over `allUserIDs`: identity lookup, then user upsert, stopping at
the first error. -/
def upsertUsers (h : Handler) : List String → Trace → Option String × Trace
  | [], t => (none, t)
  | userID :: rest, t =>
    let r := h.userClient.GetUserInfoByUUID t userID
    let t1 := t ++ [Event.GetUserInfoByUUID userID r.1 r.2]
    match r.2 with
    | some err => (some ("failed to get user info for " ++ userID ++ ": " ++ err), t1)
    | none =>
      let e := h.repository.AddNewUser t1 r.1
      let t2 := t1 ++ [Event.AddNewUser r.1 e]
      match e with
      | some err => (some ("failed to add user " ++ userID ++ " to users table: " ++ err), t2)
      | none => upsertUsers h rest t2

/-- The slice `members` after its loop. -/
def members (req : CreateStreamRequest) (creatorID : String) : List model.StreamMember :=
  req.Users.foldl
    (fun acc user =>
      if user.Id != "" && user.Id != creatorID then
        acc ++ [⟨user.Id, match user.Metadata with | some m => m | none => ""⟩]
      else acc)
    [⟨creatorID, req.CreatorMetadata⟩]

/-- The slice `subscriptions` after its loop. -/
def subscriptions (members : List model.StreamMember) (streamID : String) :
    List model.UserSubscription :=
  members.foldl (fun acc member => acc ++ [⟨member.UserID, streamID⟩]) []

/-- The unit of work `CreateStream` hands to `tx.TxExecute`; the captured
variable is `streamID`. -/
def unitOfWork (h : Handler) (req : CreateStreamRequest) (creatorID : String)
    (streamID : String) (t : Trace) : Completion (Option String) × String × Trace :=
  match upsertUsers h (allUserIDs req creatorID) t with
  | (some err, t1) => (.returned (some err), streamID, t1)
  | (none, t1) =>
    let r := h.repository.CreateStream t1 req.Type_ req.ChatMetadata creatorID
    let t2 := t1 ++ [Event.CreateStream req.Type_ req.ChatMetadata creatorID r.1 r.2]
    match r.2 with
    | some err => (.returned (some err), r.1, t2)
    | none =>
      let ms := members req creatorID
      let e := h.repository.AddStreamMembers t2 r.1 ms
      let t3 := t2 ++ [Event.AddStreamMembers r.1 ms e]
      match e with
      | some err => (.returned (some err), r.1, t3)
      | none =>
        let subs := subscriptions ms r.1
        let e2 := h.repository.AddUserSubscriptions t3 subs
        let t4 := t3 ++ [Event.AddUserSubscriptions subs e2]
        match e2 with
        | some err => (.returned (some err), r.1, t4)
        | none => (.returned none, r.1, t4)

end CreateStream

/-- The handler `Handler.CreateStream`. -/
def Handler.CreateStream (h : Handler) (body : Option CreateStreamRequest)
    (ctxUUID : Option String) (t : Trace) : Completion Response × Trace :=
  match body with
  | none => (.returned (writeError "invalid request body" http.StatusBadRequest), t)
  | some req =>
    match ctxUUID with
    | none =>
      (.returned (writeError "failed to get creator ID" http.StatusInternalServerError), t)
    | some creatorID =>
      match h.validator.ValidateCreateStream req creatorID with
      | some err =>
        (.returned (writeError ("stream validation failed: " ++ err) http.StatusBadRequest), t)
      | none =>
        match tx.TxExecute (CreateStream.unitOfWork h req creatorID) "" t with
        | (.panicked msg, _, t1) => (.panicked msg, t1)
        | (.returned (some err), _, t1) =>
          (.returned (writeError ("failed to create stream: " ++ err)
            http.StatusInternalServerError), t1)
        | (.returned none, streamID, t1) =>
          (.returned (writeJSON (.CreateStreamResponse streamID) http.StatusOK), t1)

namespace SendMessage

/-- The two optional references of a message, set after the struct literal:
each non-empty identifier goes through `uuid.MustParse`. -/
def withReferences (req : SendMessageRequest) (message : model.Message) :
    Completion Unit × model.Message :=
  let afterParent : Completion Unit × model.Message :=
    match req.ParentId with
    | some p =>
      if p != "" then
        match uuid.MustParse p with
        | .panicked msg => (.panicked msg, message)
        | .returned parentUUID => (.returned (), { message with ParentID := some parentUUID })
      else (.returned (), message)
    | none => (.returned (), message)
  match afterParent with
  | (.panicked msg, m1) => (.panicked msg, m1)
  | (.returned _, m1) =>
    match req.RootId with
    | some p =>
      if p != "" then
        match uuid.MustParse p with
        | .panicked msg => (.panicked msg, m1)
        | .returned rootUUID => (.returned (), { m1 with RootID := some rootUUID })
      else (.returned (), m1)
    | none => (.returned (), m1)

/-- The struct literal assigned to `message`: the fields not listed keep their
zero value. -/
def newMessage (req : SendMessageRequest) (id streamUUID senderUUID : UUID) (now : Time) :
    model.Message :=
  { ID := id, StreamID := streamUUID, SenderID := senderUUID,
    Type_ := req.MessageType, Content := req.Content,
    RootID := none, ParentID := none, SentAt := now, UpdatedAt := none }

/-- The unit of work `SendMessage` hands to `tx.TxExecute`; the captured
variable is `message`. -/
def unitOfWork (h : Handler) (rt : Runtime) (req : SendMessageRequest)
    (streamId senderID : String) (message : model.Message) (t : Trace) :
    Completion (Option String) × model.Message × Trace :=
  let r := h.repository.IsStreamMember t streamId senderID
  let t1 := t ++ [Event.IsStreamMember streamId senderID r.1 r.2]
  match r.2 with
  | some err => (.returned (some ("failed to check stream membership: " ++ err)), message, t1)
  | none =>
    if !r.1 then
      (.returned (some "user is not a member of this stream"), message, t1)
    else
      let id := rt.New t1
      match uuid.MustParse streamId with
      | .panicked msg => (.panicked msg, message, t1)
      | .returned streamUUID =>
        match uuid.MustParse senderID with
        | .panicked msg => (.panicked msg, message, t1)
        | .returned senderUUID =>
          match withReferences req (newMessage req id streamUUID senderUUID (rt.Now t1)) with
          | (.panicked msg, m1) => (.panicked msg, m1, t1)
          | (.returned _, m1) =>
            let e := h.repository.SaveMessage t1 m1
            let t2 := t1 ++ [Event.SaveMessage m1 e]
            match e with
            | some err => (.returned (some ("failed to save message: " ++ err)), m1, t2)
            | none => (.returned none, m1, t2)

end SendMessage

/-- The handler `Handler.SendMessage`. -/
def Handler.SendMessage (h : Handler) (rt : Runtime) (body : Option SendMessageRequest)
    (ctxUUID : Option String) (streamId : String) (t : Trace) : Completion Response × Trace :=
  match body with
  | none => (.returned (writeError "invalid request body" http.StatusBadRequest), t)
  | some req =>
    match ctxUUID with
    | none =>
      (.returned (writeError "failed to get sender ID" http.StatusInternalServerError), t)
    | some senderID =>
      match h.validator.ValidateSendMessage req with
      | some err =>
        (.returned (writeError ("message validation failed: " ++ err) http.StatusBadRequest), t)
      | none =>
        match tx.TxExecute (SendMessage.unitOfWork h rt req streamId senderID)
            model.Message.zero t with
        | (.panicked msg, _, t1) => (.panicked msg, t1)
        | (.returned (some err), _, t1) =>
          (.returned (writeError ("failed to send message: " ++ err)
            http.StatusInternalServerError), t1)
        | (.returned none, message, t1) =>
          let channel := message.StreamID.String
          let perr := h.centrifugeClient.Publish t1 channel message
          let t2 := t1 ++ [Event.Publish channel message perr]
          (.returned (writeJSON
            (.SendMessageResponse message.ID.String (rt.Format message.SentAt))
            http.StatusOK), t2)

/-- The handler `Handler.GetStreamSubscribeToken`. -/
def Handler.GetStreamSubscribeToken (h : Handler) (ctxUUID : Option String)
    (streamId : String) (t : Trace) : Completion Response × Trace :=
  match ctxUUID with
  | none =>
    (.returned (writeError "failed to get user UUID" http.StatusInternalServerError), t)
  | some userUUID =>
    let r := h.repository.IsStreamMember t streamId userUUID
    let t1 := t ++ [Event.IsStreamMember streamId userUUID r.1 r.2]
    match r.2 with
    | some err =>
      (.returned (writeError ("failed to check stream membership: " ++ err)
        http.StatusInternalServerError), t1)
    | none =>
      if !r.1 then
        (.returned (writeError "user is not a member of the stream" http.StatusForbidden), t1)
      else
        let g := h.jwtGenerator.GenerateSubscribeToken t1 userUUID streamId
        let t2 := t1 ++ [Event.GenerateSubscribeToken userUUID streamId g.1 g.2.1 g.2.2]
        match g.2.2 with
        | some err =>
          (.returned (writeError ("failed to generate subscribe token: " ++ err)
            http.StatusInternalServerError), t2)
        | none =>
          (.returned (writeJSON (.GetStreamSubscribeTokenResponse g.1 g.2.1 streamId)
            http.StatusOK), t2)

/-- The conversion of a stored message to `api.Message` in `GetStreamRecentMessages`. -/
def toApiMessage (rt : Runtime) (msg : model.Message) : ApiMessage where
  Uuid := msg.ID.String
  Content := msg.Content
  SentAt := rt.Format msg.SentAt
  UpdatedAt := msg.UpdatedAt.map rt.Format
  RootUuid := msg.RootID.map UUID.String
  ParentUuid := msg.ParentID.map UUID.String

/-- The handler `Handler.GetStreamRecentMessages`. -/
def Handler.GetStreamRecentMessages (h : Handler) (rt : Runtime) (ctxUUID : Option String)
    (streamId : String) (params : GetStreamRecentMessagesParams) (t : Trace) :
    Completion Response × Trace :=
  match ctxUUID with
  | none => (.returned (writeError "failed to find uuid" http.StatusInternalServerError), t)
  | some userUUID =>
    let r := h.repository.IsStreamMember t streamId userUUID
    let t1 := t ++ [Event.IsStreamMember streamId userUUID r.1 r.2]
    match r.2 with
    | some err =>
      (.returned (writeError ("failed to check stream membership: " ++ err)
        http.StatusInternalServerError), t1)
    | none =>
      if !r.1 then
        (.returned (writeError "user is not a member of the stream" http.StatusForbidden), t1)
      else
        let offset := match params.Offset with
          | some o => o
          | none => ""
        let limit := match params.Limit with
          | some l => int32 l
          | none => int32 20
        let q := h.repository.GetStreamRecentMessages t1 streamId offset limit
        let t2 := t1 ++ [Event.GetStreamRecentMessages streamId offset limit q.1 q.2]
        match q.2 with
        | some err =>
          (.returned (writeError ("failed to fetch messages: " ++ err)
            http.StatusInternalServerError), t2)
        | none =>
          match q.1 with
          | none => (.panicked "invalid memory address or nil pointer dereference", t2)
          | some messages =>
            (.returned (writeJSON
              (.GetStreamRecentMessagesResponse (messages.map (toApiMessage rt)))
              http.StatusOK), t2)

namespace GetBatchSubscribeTokens

/-- The loop of `GetBatchSubscribeTokens` over `req.StreamIds`, from the
subscriptions collected so far. -/
def loop (h : Handler) (userUUID : String) :
    List String → List StreamSubscription → Trace → List StreamSubscription × Trace
  | [], subscriptions, t => (subscriptions, t)
  | streamID :: rest, subscriptions, t =>
    let r := h.repository.IsStreamMember t streamID userUUID
    let t1 := t ++ [Event.IsStreamMember streamID userUUID r.1 r.2]
    match r.2 with
    | some _ => loop h userUUID rest subscriptions t1
    | none =>
      if !r.1 then loop h userUUID rest subscriptions t1
      else
        let g := h.jwtGenerator.GenerateSubscribeToken t1 userUUID streamID
        let t2 := t1 ++ [Event.GenerateSubscribeToken userUUID streamID g.1 g.2.1 g.2.2]
        match g.2.2 with
        | some _ => loop h userUUID rest subscriptions t2
        | none => loop h userUUID rest (subscriptions ++ [⟨streamID, g.1, g.2.1, streamID⟩]) t2

end GetBatchSubscribeTokens

/-- The handler `Handler.GetBatchSubscribeTokens`. -/
def Handler.GetBatchSubscribeTokens (h : Handler) (body : Option GetBatchSubscribeTokensRequest)
    (ctxUUID : Option String) (t : Trace) : Completion Response × Trace :=
  match body with
  | none => (.returned (writeError "invalid request body" http.StatusBadRequest), t)
  | some req =>
    match ctxUUID with
    | none =>
      (.returned (writeError "failed to get user UUID" http.StatusInternalServerError), t)
    | some userUUID =>
      match GetBatchSubscribeTokens.loop h userUUID req.StreamIds [] t with
      | (subscriptions, t1) =>
        (.returned (writeJSON (.GetBatchSubscribeTokensResponse subscriptions) http.StatusOK),
          t1)

/-- The conversion of a stream preview to `api.PrivateStream` in `GetPrivateStreams`. -/
def toApiPrivateStream (rt : Runtime) (stream : model.PrivateStreamPreview) :
    ApiPrivateStream where
  StreamId := stream.StreamID
  LastMessageContent := stream.LastMessageContent
  StreamName := stream.StreamName
  AvatarUrl := some stream.AvatarURL
  LastMessageTimestamp := stream.LastMessageTimestamp.map rt.Format

/-- The handler `Handler.GetPrivateStreams`. -/
def Handler.GetPrivateStreams (h : Handler) (rt : Runtime) (ctxUUID : Option String)
    (t : Trace) : Completion Response × Trace :=
  match ctxUUID with
  | none =>
    (.returned (writeError "failed to get requester id" http.StatusInternalServerError), t)
  | some requesterID =>
    let r := h.repository.GetPrivateStreams t requesterID
    let t1 := t ++ [Event.GetPrivateStreams requesterID r.1 r.2]
    match r.2 with
    | some err =>
      (.returned (writeError ("failed to get private streams: " ++ err)
        http.StatusInternalServerError), t1)
    | none =>
      match r.1 with
      | none => (.panicked "invalid memory address or nil pointer dereference", t1)
      | some privateStreams =>
        (.returned (writeJSON
          (.GetPrivateStreamsResponse (privateStreams.map (toApiPrivateStream rt)))
          http.StatusOK), t1)

/-- The handler `Handler.GetConnectAccessToken`. -/
def Handler.GetConnectAccessToken (h : Handler) (ctxUUID : Option String) (t : Trace) :
    Completion Response × Trace :=
  match ctxUUID with
  | none =>
    (.returned (writeError "failed to get user UUID" http.StatusInternalServerError), t)
  | some userUUID =>
    let g := h.jwtGenerator.GenerateConnectToken t userUUID
    let t1 := t ++ [Event.GenerateConnectToken userUUID g.1 g.2.1 g.2.2]
    match g.2.2 with
    | some err =>
      (.returned (writeError ("failed to generate access token: " ++ err)
        http.StatusInternalServerError), t1)
    | none =>
      (.returned (writeJSON (.GetConnectAccessTokenResponse g.1 g.2.1) http.StatusOK), t1)

/-- The handler `Handler.GetUserActiveStreams`. -/
def Handler.GetUserActiveStreams (h : Handler) (ctxUUID : Option String) (t : Trace) :
    Completion Response × Trace :=
  match ctxUUID with
  | none =>
    (.returned (writeError "failed to get user UUID" http.StatusInternalServerError), t)
  | some userUUID =>
    let r := h.repository.GetUserActiveStreams t userUUID
    let t1 := t ++ [Event.GetUserActiveStreams userUUID r.1 r.2]
    match r.2 with
    | some err =>
      (.returned (writeError ("failed to get user active streams: " ++ err)
        http.StatusInternalServerError), t1)
    | none =>
      (.returned (writeJSON (.GetUserActiveStreamsResponse r.1) http.StatusOK), t1)

/-! ## Token generator (`internal/pkg/jwt/jwt.go`, `internal/model/centrifugo.go`) -/

namespace time

/-- The constant `time.Second`, in nanoseconds. -/
def Second : Int := 1000000000

/-- The constant `time.Minute`, in nanoseconds. -/
def Minute : Int := 60 * Second

end time

/-- The method `Time.Add`. -/
def Time.Add (t : Time) (d : Int) : Time := ⟨t.unixNano + d⟩

/-- The method `Time.Unix`: the whole seconds since the epoch, rounded down. -/
def Time.Unix (t : Time) : Int := t.unixNano / time.Second

namespace jwt

/-- The function `jwt.NewNumericDate` of the JWT library: the time truncated to
the library's precision of one second. -/
def NewNumericDate (t : Time) : Time := ⟨t.unixNano / time.Second * time.Second⟩

/-- The struct `jwt.RegisteredClaims` of the JWT library (the dates are pointers). -/
structure RegisteredClaims where
  Issuer : String
  Subject : String
  Audience : List String
  ExpiresAt : Option Time
  NotBefore : Option Time
  IssuedAt : Option Time
  ID : String
deriving DecidableEq, Repr

end jwt

namespace model

/-- The struct `model.CentrifugoConnectClaims`. -/
structure CentrifugoConnectClaims where
  RegisteredClaims : jwt.RegisteredClaims
deriving DecidableEq, Repr

/-- The struct `model.CentrifugoSubscribeClaims`. -/
structure CentrifugoSubscribeClaims where
  RegisteredClaims : jwt.RegisteredClaims
  Channel : String
  Client : String
  UserID : String
  StreamID : String
deriving DecidableEq, Repr

end model

namespace jwt

/-- The signing of the JWT library, `jwt.NewWithClaims(jwt.SigningMethodHS256,
claims).SignedString(secret)`, for the two kinds of claims: the token string and
the error. -/
structure Signing where
  connect : model.CentrifugoConnectClaims → List Nat → String × Option String
  subscribe : model.CentrifugoSubscribeClaims → List Nat → String × Option String

/-- The struct `Generator`. -/
structure Generator where
  secret : List Nat

/-- The claims `GenerateConnectToken` builds, `now` being the result of `time.Now()`. -/
def Generator.connectClaims (now : Time) (userID : String) : model.CentrifugoConnectClaims :=
  let expiresAt := now.Add (30 * time.Minute)
  { RegisteredClaims :=
      { Issuer := "", Subject := userID, Audience := [],
        ExpiresAt := some (NewNumericDate expiresAt), NotBefore := none,
        IssuedAt := some (NewNumericDate now), ID := "" } }

/-- The method `Generator.GenerateConnectToken`, `now` being the result of `time.Now()`. -/
def Generator.GenerateConnectToken (g : Generator) (sg : Signing) (now : Time)
    (userID : String) : String × Int × Option String :=
  let expiresAt := now.Add (30 * time.Minute)
  match sg.connect (Generator.connectClaims now userID) g.secret with
  | (_, some err) => ("", 0, some ("failed to sign connect JWT token: " ++ err))
  | (tokenString, none) => (tokenString, expiresAt.Unix, none)

/-- The claims `GenerateSubscribeToken` builds, `now` being the result of `time.Now()`. -/
def Generator.subscribeClaims (now : Time) (userID streamID : String) :
    model.CentrifugoSubscribeClaims :=
  let expiresAt := now.Add (30 * time.Minute)
  { RegisteredClaims :=
      { Issuer := "", Subject := userID, Audience := [],
        ExpiresAt := some (NewNumericDate expiresAt), NotBefore := none,
        IssuedAt := some (NewNumericDate now), ID := "" },
    Channel := streamID, Client := "", UserID := userID, StreamID := streamID }

/-- The method `Generator.GenerateSubscribeToken`, `now` being the result of `time.Now()`. -/
def Generator.GenerateSubscribeToken (g : Generator) (sg : Signing) (now : Time)
    (userID streamID : String) : String × Int × Option String :=
  let expiresAt := now.Add (30 * time.Minute)
  match sg.subscribe (Generator.subscribeClaims now userID streamID) g.secret with
  | (_, some err) => ("", 0, some ("failed to sign subscribe JWT token: " ++ err))
  | (tokenString, none) => (tokenString, expiresAt.Unix, none)

end jwt

/-! ## Membership queries (`internal/repository/postgres/repo.go`) -/

namespace postgres

/-- A row of table `stream_members`, with the columns the queries name
(`left_at` is nullable). -/
structure StreamMemberRow where
  stream_id : String
  user_id : String
  metadata : String
  left_at : Option Time
deriving DecidableEq, Repr

namespace Repository

/-- The query of `Repository.IsStreamMember`:
`SELECT COUNT(*) > 0 FROM stream_members WHERE (stream_id = $1 AND user_id = $2)`. -/
def IsStreamMember (stream_members : List StreamMemberRow) (streamID userID : String) : Bool :=
  decide ((stream_members.filter
    (fun r => r.stream_id == streamID && r.user_id == userID)).length > 0)

/-- The query of `Repository.GetUserActiveStreams`:
`SELECT stream_id FROM stream_members WHERE left_at IS NULL AND user_id = $1`. -/
def GetUserActiveStreams (stream_members : List StreamMemberRow) (userID : String) :
    List String :=
  (stream_members.filter (fun r => r.left_at.isNone && r.user_id == userID)).map
    (fun r => r.stream_id)

end Repository

/-- A row of table `messages`, with the columns the queries name (`root_id`,
`parent_id`, `updated_at` and `deleted_at` are nullable). -/
structure MessageRow where
  id : UUID
  stream_id : UUID
  sender_id : UUID
  type_ : String
  content : String
  root_id : Option UUID
  parent_id : Option UUID
  sent_at : Time
  updated_at : Option Time
  deleted_at : Option Time
deriving DecidableEq, Repr

namespace Repository

/-- The statement of `Repository.SaveMessage`, when it succeeds:
`INSERT INTO messages (id, stream_id, sender_id, type, content, root_id,
parent_id) VALUES ($1, ..., $7)`. The columns the statement does not list are
filled by the database: `sent_at` with `sentAtDefault` (the table declaration is
not among the sources), `updated_at` and `deleted_at` with NULL. -/
def SaveMessage (sentAtDefault : Time) (messages : List MessageRow) (message : model.Message) :
    List MessageRow :=
  messages ++
    [{ id := message.ID, stream_id := message.StreamID, sender_id := message.SenderID,
       type_ := message.Type_, content := message.Content, root_id := message.RootID,
       parent_id := message.ParentID, sent_at := sentAtDefault, updated_at := none,
       deleted_at := none }]

end Repository

/-- What the database makes of the text parameters it compares with a `uuid`
and a timestamp column: the value read, or nothing when the text is refused. -/
structure Input where
  uuid : String → Option UUID
  timestamp : String → Option Time

/-- The columns `GetStreamRecentMessages` selects, scanned into `model.Message`. -/
def MessageRow.scan (row : MessageRow) : model.Message where
  ID := row.id
  StreamID := row.stream_id
  SenderID := row.sender_id
  Type_ := row.type_
  Content := row.content
  RootID := row.root_id
  ParentID := row.parent_id
  SentAt := row.sent_at
  UpdatedAt := row.updated_at

/-- A row of table `user_subscriptions`, with the columns the insert names. -/
structure UserSubscriptionRow where
  user_id : String
  channel : String
deriving DecidableEq, Repr

namespace Repository

/-- The query of `Repository.GetStreamRecentMessages`:
`SELECT ... FROM messages WHERE stream_id = $1 AND deleted_at IS NULL
[AND sent_at <= $2] ORDER BY sent_at DESC LIMIT n`, the condition on `sent_at`
present when `offset` is not empty, `n` being `limit` when it is positive and 50
otherwise. Rows with equal `sent_at` keep their table order. -/
def GetStreamRecentMessages (conv : Input) (messages : List MessageRow)
    (streamID offset : String) (limit : Int) : Option (List model.Message) × Option String :=
  match conv.uuid streamID with
  | none => (none, some "invalid input syntax for type uuid")
  | some sid =>
    let bound : Option (Option Time) :=
      if offset != "" then (conv.timestamp offset).map some else some none
    match bound with
    | none => (none, some "invalid input syntax for type timestamp")
    | some before =>
      let rows := messages.filter (fun row =>
        row.stream_id == sid && row.deleted_at.isNone &&
          (match before with
            | some b => decide (row.sent_at.unixNano ≤ b.unixNano)
            | none => true))
      let sorted := rows.insertionSort (fun a b => b.sent_at.unixNano ≤ a.sent_at.unixNano)
      let n := if limit > 0 then limit.toNat else 50
      (some ((sorted.take n).map MessageRow.scan), none)

/-- One row of the insert of `AddUserSubscriptions`, under
`ON CONFLICT (user_id, channel) DO NOTHING`: a row whose pair is in the table
already is skipped. -/
def insertSubscription (rows : List UserSubscriptionRow) (sub : model.UserSubscription) :
    List UserSubscriptionRow :=
  if (⟨sub.UserID, sub.Channel⟩ : UserSubscriptionRow) ∈ rows then rows
  else rows ++ [⟨sub.UserID, sub.Channel⟩]

/-- The method `Repository.AddUserSubscriptions` on the content of table
`user_subscriptions`: the error and the new content. The statement
`INSERT INTO user_subscriptions (user_id, channel) VALUES ... ON CONFLICT
(user_id, channel) DO NOTHING` cannot be built without values. -/
def AddUserSubscriptions (rows : List UserSubscriptionRow)
    (subscriptions : List model.UserSubscription) :
    Option String × List UserSubscriptionRow :=
  if subscriptions.isEmpty then
    (some ("failed to build sql query: " ++
      "insert statements must have at least one set of values or select clause"), rows)
  else (none, subscriptions.foldl insertSubscription rows)

end Repository

end postgres

/-! ## Front door (`cmd/service/main.go`, over `github.com/soheilhy/cmux`)

A connection is given by its leading bytes, those the matchers get to read. -/

namespace cmux

/-- The list `defaultHTTPMethods` of the library. -/
def defaultHTTPMethods : List String :=
  ["OPTIONS", "GET", "HEAD", "POST", "PUT", "DELETE", "TRACE", "CONNECT"]

/-- Whether the bytes `b` begin with the bytes `p`. -/
def beginsWith (b p : List Nat) : Bool := b.take p.length == p

/-- The matcher `cmux.PrefixMatcher(strs...)`: it reads up to one byte more than
the longest string and matches when one of the strings begins what it read. -/
def PrefixMatcher (strs : List String) (conn : List Nat) : Bool :=
  let maxDepth := (strs.map (fun s => (goBytes s).length)).foldl max 0 + 1
  let buf := conn.take maxDepth
  strs.any (fun s => beginsWith buf (goBytes s))

/-- The matcher `cmux.HTTP1Fast(extMethods...)`. -/
def HTTP1Fast (extMethods : List String) (conn : List Nat) : Bool :=
  PrefixMatcher (defaultHTTPMethods ++ extMethods) conn

/-- The constant `http2.ClientPreface`: 24 bytes, each line break being a
carriage return (13) followed by a line feed (10). -/
def ClientPreface : String := "PRI * HTTP/2.0\r\n\r\nSM\r\n\r\n"

/-- The helper `hasHTTP2Preface`: the first 24 bytes are the client preface. -/
def hasHTTP2Preface (conn : List Nat) : Bool :=
  conn.take (goBytes ClientPreface).length == goBytes ClientPreface

/-- The matcher `cmux.HTTP2MatchHeaderFieldSendSettings(name, value)`: the client
preface, then frames in which the header field `name` has the value `value`;
reading the frames is left to `fieldMatches`, applied to the bytes after the
preface. -/
def HTTP2MatchHeaderFieldSendSettings (fieldMatches : List Nat → Bool) (conn : List Nat) :
    Bool :=
  hasHTTP2Preface conn && fieldMatches (conn.drop (goBytes ClientPreface).length)

end cmux

namespace main

/-- Where the multiplexer of `main` leaves a connection. -/
inductive Delivery where
  | grpcListener
  | httpListener
  | closed
deriving DecidableEq, Repr

/-- The dispatch of `cmux` with the two listeners `main` registers, in their
order: `grpcListener` for `HTTP2MatchHeaderFieldSendSettings("content-type",
"application/grpc")`, then `httpListener` for `HTTP1Fast()`; a connection that no
matcher accepts is closed. -/
def serve (fieldMatches : List Nat → Bool) (conn : List Nat) : Delivery :=
  if cmux.HTTP2MatchHeaderFieldSendSettings fieldMatches conn then .grpcListener
  else if cmux.HTTP1Fast [] conn then .httpListener
  else .closed

end main

/-! ## Reading a trace -/

/-- The `(channel, message)` pairs of the `Publish` calls of a trace, in order. -/
def publishCalls (evs : Trace) : List (String × model.Message) :=
  evs.filterMap (fun e => match e with
    | .Publish channel data _ => some (channel, data)
    | _ => none)

/-- The messages of the `SaveMessage` calls of a trace, in order. -/
def saveCalls (evs : Trace) : List model.Message :=
  evs.filterMap (fun e => match e with
    | .SaveMessage message _ => some message
    | _ => none)

/-- The `CreateStream` calls of a trace, in order: type, metadata, creator and
the id returned. -/
def createCalls (evs : Trace) : List (String × String × String × String) :=
  evs.filterMap (fun e => match e with
    | .CreateStream streamType metadata createdBy id _ => some (streamType, metadata, createdBy, id)
    | _ => none)

/-- The `(streamID, userID)` pairs of the `IsStreamMember` calls of a trace, in order. -/
def membershipChecks (evs : Trace) : List (String × String) :=
  evs.filterMap (fun e => match e with
    | .IsStreamMember streamID userID _ _ => some (streamID, userID)
    | _ => none)

/-- The `(streamID, userID)` pairs of the `IsStreamMember` calls of a trace that
answered true with no error, in order. -/
def membershipsFound (evs : Trace) : List (String × String) :=
  evs.filterMap (fun e => match e with
    | .IsStreamMember streamID userID true none => some (streamID, userID)
    | _ => none)

/-- The `(streamID, userID)` pairs of the `GenerateSubscribeToken` calls of a
trace, in order. -/
def tokenRequests (evs : Trace) : List (String × String) :=
  evs.filterMap (fun e => match e with
    | .GenerateSubscribeToken userID streamID _ _ _ => some (streamID, userID)
    | _ => none)

/-- The subscribe tokens a trace generated with no error, in order, each as the
stream id, the token and its expiry. -/
def tokensGenerated (evs : Trace) : List (String × String × Int) :=
  evs.filterMap (fun e => match e with
    | .GenerateSubscribeToken _ streamID token expiresAt none =>
      some (streamID, token, expiresAt)
    | _ => none)

/-- The entry of the batch response for a generated token, given as the stream
id, the token and its expiry: the channel is the stream id. -/
def StreamSubscription.ofToken (x : String × String × Int) : StreamSubscription :=
  ⟨x.1, x.2.1, x.2.2, x.1⟩

/-- The `(streamID, offset, limit)` triples of the `GetStreamRecentMessages`
calls of a trace, in order. -/
def recentMessagesCalls (evs : Trace) : List (String × String × Int) :=
  evs.filterMap (fun e => match e with
    | .GetStreamRecentMessages streamID offset limit _ _ => some (streamID, offset, limit)
    | _ => none)

/-- A step of the user loop of `CreateStream`: an identity lookup or a user upsert. -/
def Event.isUserStep : Event → Bool
  | .GetUserInfoByUUID _ _ _ => true
  | .AddNewUser _ _ => true
  | _ => false

/-- The member lists of the `AddStreamMembers` calls of a trace, in order. -/
def memberCalls (evs : Trace) : List (List model.StreamMember) :=
  evs.filterMap (fun e => match e with
    | .AddStreamMembers _ members _ => some members
    | _ => none)

/-- The subscription lists of the `AddUserSubscriptions` calls of a trace, in order. -/
def subscriptionCalls (evs : Trace) : List (List model.UserSubscription) :=
  evs.filterMap (fun e => match e with
    | .AddUserSubscriptions subscriptions _ => some subscriptions
    | _ => none)

/-! ## Sample collaborators, for evaluating the handlers on concrete requests -/

namespace sample

/-- A repository whose writes all succeed, whose `CreateStream` returns the id
`stream-1`, and whose `IsStreamMember` answers with the given function. -/
def repository (isMember : String → String → Bool) : DBRepo where
  CreateStream := fun _ _ _ _ => ("stream-1", none)
  AddStreamMembers := fun _ _ _ => none
  AddNewUser := fun _ _ => none
  AddUserSubscriptions := fun _ _ => none
  SaveMessage := fun _ _ => none
  IsStreamMember := fun _ streamID userID => (isMember streamID userID, none)
  GetStreamRecentMessages := fun _ _ _ _ => (some [], none)
  GetPrivateStreams := fun _ _ => (some [], none)
  GetUserActiveStreams := fun _ _ => ([], none)

/-- An identity service that knows every user. -/
def userClient : UserClient where
  GetUserInfoByUUID := fun _ userUUID => (some ⟨userUUID, "nick", "avatar"⟩, none)

/-- An identity service that is unreachable. -/
def offlineUserClient : UserClient where
  GetUserInfoByUUID := fun _ _ => (none, some "unavailable")

/-- A broker whose publish succeeds. -/
def centrifugeClient : CetrifugeClient where
  Publish := fun _ _ _ => none

/-- A broker whose publish fails. -/
def brokenCentrifugeClient : CetrifugeClient where
  Publish := fun _ _ _ => some "unexpected status code: 503"

/-- A token generator returning a fixed token. -/
def jwtGenerator : JWTGenerator where
  GenerateConnectToken := fun _ _ => ("connect-token", 1800, none)
  GenerateSubscribeToken := fun _ _ _ => ("subscribe-token", 1800, none)

/-- A runtime with a fixed fresh id and a fixed clock. -/
def runtime : Runtime where
  New := fun _ => ⟨[1, 2, 3, 4, 5, 6, 7, 8, 9, 10, 11, 12, 13, 14, 15, 16]⟩
  Now := fun _ => ⟨0⟩
  Format := fun _ => "1970-01-01T00:00:00Z"

/-- A handler over the sample collaborators and the validator of the repository. -/
def handler (isMember : String → String → Bool) : Handler where
  repository := repository isMember
  userClient := userClient
  centrifugeClient := centrifugeClient
  validator := validator.New
  jwtGenerator := jwtGenerator

/-- A user id in canonical form. -/
def alice : String := "11111111-1111-4111-8111-111111111111"

/-- Another user id in canonical form. -/
def bob : String := "22222222-2222-4222-8222-222222222222"

/-- A stream id in canonical form. -/
def stream : String := "a0eebc99-9c0b-4ef8-bb6d-6bb9bd380a11"

/-- The same stream id written in upper case. -/
def streamUpper : String := "A0EEBC99-9C0B-4EF8-BB6D-6BB9BD380A11"

/-- A private stream request naming the same participant twice. -/
def twiceBob : CreateStreamRequest :=
  ⟨"private", [⟨bob, none⟩, ⟨bob, some "again"⟩], "chat", "creator"⟩

/-- A private stream request with one participant. -/
def onlyBob : CreateStreamRequest :=
  ⟨"private", [⟨bob, some "guest"⟩], "chat", "creator"⟩

/-- Table `stream_members` with one row: alice joined the stream and left it. -/
def aliceLeft : List postgres.StreamMemberRow :=
  [⟨stream, alice, "", some ⟨1⟩⟩]

/-- The stream id of `stream` with a hyphen after every group of four digits, a
form PostgreSQL reads as the same UUID. -/
def streamGrouped : String := "a0ee-bc99-9c0b-4ef8-bb6d-6bb9-bd38-0a11"

/-- The database input of the examples: UUIDs as `uuid.Parse` reads them, and
two timestamps. -/
def input : postgres.Input where
  uuid := uuid.Parse
  timestamp := fun s =>
    if s == "1970-01-01T00:00:01Z" then some ⟨1000000000⟩
    else if s == "1970-01-01T00:00:02Z" then some ⟨2000000000⟩
    else none

/-- The UUID of `stream`. -/
def streamUUID : UUID :=
  ⟨[160, 238, 188, 153, 156, 11, 78, 248, 187, 109, 107, 185, 189, 56, 10, 17]⟩

/-- Table `messages` with two messages of the stream, sent at seconds 1 and 2. -/
def twoMessages : List postgres.MessageRow :=
  [{ id := ⟨List.replicate 16 1⟩, stream_id := streamUUID, sender_id := ⟨List.replicate 16 9⟩,
     type_ := "text", content := "first", root_id := none, parent_id := none,
     sent_at := ⟨1000000000⟩, updated_at := none, deleted_at := none },
   { id := ⟨List.replicate 16 2⟩, stream_id := streamUUID, sender_id := ⟨List.replicate 16 9⟩,
     type_ := "text", content := "second", root_id := none, parent_id := none,
     sent_at := ⟨2000000000⟩, updated_at := none, deleted_at := none }]

/-- The first bytes of a TLS handshake. -/
def tlsHello : List Nat := [22, 3, 1, 2, 0, 1, 0, 1, 252, 3, 3]

/-- The first bytes of an HTTP/2 connection: the 24 bytes of the client preface,
written out, then the header of an empty SETTINGS frame. -/
def http2Hello : List Nat :=
  [80, 82, 73, 32, 42, 32, 72, 84, 84, 80, 47, 50, 46, 48, 13, 10, 13, 10, 83, 77, 13, 10,
    13, 10, 0, 0, 0, 4, 0, 0, 0, 0, 0]

/-- The same bytes with every line break of the preface cut down to a line feed. -/
def lineFeedHello : List Nat :=
  [80, 82, 73, 32, 42, 32, 72, 84, 84, 80, 47, 50, 46, 48, 10, 10, 83, 77, 10, 10,
    0, 0, 0, 4, 0, 0, 0, 0, 0]

/-- The first bytes of an HTTP/1 request. -/
def getRequest : List Nat := goBytes "GET /api/chat/streams/private HTTP/1.1"

/-- A valid text message whose parent reference is not a UUID. -/
def badParent : SendMessageRequest := ⟨"hello", "text", some "not-a-uuid", none⟩

/-- The time the database gives `sent_at` in the examples: one second after the
clock of `runtime`. -/
def databaseClock : Time := ⟨1000000000⟩

/-- Query parameters with a limit beyond 32 bits and no offset. -/
def hugeLimit : GetStreamRecentMessagesParams := ⟨none, some 4294967316⟩

/-- Query parameters with an offset and a limit. -/
def page : GetStreamRecentMessagesParams := ⟨some "2024-01-01T00:00:00Z", some 50⟩

/-- A signing that always succeeds with the same token. -/
def signing : jwt.Signing where
  connect := fun _ _ => ("connect-token", none)
  subscribe := fun _ _ => ("subscribe-token", none)

/-- A valid text message. -/
def hello : SendMessageRequest := ⟨"hello", "text", none, none⟩

end sample

/-! ## Theorems -/

namespace validator

theorem mapInsert_nodup (m : List String) (k : String) (h : m.Nodup) :
    (mapInsert m k).Nodup := by
  unfold mapInsert
  split
  · exact h
  · rename_i hk
    exact List.Nodup.append h (List.nodup_singleton k) (by simpa using hk)

theorem mapInsert_toFinset (m : List String) (k : String) :
    (mapInsert m k).toFinset = insert k m.toFinset := by
  unfold mapInsert
  split
  · rename_i hk
    ext x
    simp only [List.mem_toFinset, Finset.mem_insert]
    constructor
    · exact fun hx => Or.inr hx
    · rintro (rfl | hx)
      · exact hk
      · exact hx
  · ext x
    simp only [List.mem_toFinset, List.mem_append, List.mem_singleton, Finset.mem_insert]
    tauto

theorem collectUsers_nodup (users : List ChatUser) (c : String) :
    ∀ m : List String, m.Nodup → (collectUsers m users c).Nodup := by
  induction users with
  | nil => intro m h; simpa [collectUsers] using h
  | cons u us ih =>
    intro m h
    simp only [collectUsers, List.foldl_cons]
    split
    · exact ih _ (mapInsert_nodup m u.Id h)
    · exact ih _ h

theorem collectUsers_toFinset (users : List ChatUser) (c : String) :
    ∀ m : List String,
      (collectUsers m users c).toFinset = m.toFinset ∪ otherParticipants users c := by
  induction users with
  | nil => intro m; simp [collectUsers, otherParticipants]
  | cons u us ih =>
    intro m
    have ih1 := ih
    simp only [collectUsers] at ih1
    simp only [collectUsers, List.foldl_cons]
    split
    · rename_i hu
      rw [ih1, mapInsert_toFinset]
      have hp : decide (strings.TrimSpace u.Id ≠ "" ∧ u.Id ≠ c) = true := by
        simpa using hu
      simp only [otherParticipants, List.map_cons, List.filter_cons, hp, if_true,
        List.toFinset_cons]
      ext x
      simp only [Finset.mem_union, Finset.mem_insert]
      tauto
    · rename_i hu
      rw [ih1]
      have hp : ¬ decide (strings.TrimSpace u.Id ≠ "" ∧ u.Id ≠ c) = true := by
        simpa using hu
      simp only [otherParticipants, List.map_cons, List.filter_cons]
      rw [if_neg hp]

theorem uniqueUsers_length (users : List ChatUser) (c : String) :
    (uniqueUsers users c).length = (otherParticipants users c).card := by
  unfold uniqueUsers
  rw [← List.toFinset_card_of_nodup (collectUsers_nodup users c [] List.nodup_nil),
    collectUsers_toFinset]
  simp

/-- C1: `ValidateCreateStream` returns no error exactly when the type is
"private" and the distinct, non-blank ids of the request's users other than the
creator form a set of exactly one element. -/
theorem ValidateCreateStream_ok_iff (req : CreateStreamRequest) (c : String) :
    ValidateCreateStream req c = none ↔
      req.Type_ = "private" ∧ (otherParticipants req.Users c).card = 1 := by
  unfold ValidateCreateStream
  rw [uniqueUsers_length]
  by_cases ht : req.Type_ = "private"
  · have h1 : ¬ (strings.TrimSpace req.Type_ == "") = true := by
      rw [ht]; decide
    have h2 : strings.TrimSpace "private" ≠ "" := by decide
    simp [ht, h2, model.PrivateStreamType]
  · by_cases hb : (strings.TrimSpace req.Type_ == "") = true
    · simp [hb, ht]
    · simp [hb, ht, model.PrivateStreamType]

/-- C2: `ValidateSendMessage` returns no error exactly when the content is not
blank after trimming, has at most 500 code points, and the message type is "text". -/
theorem ValidateSendMessage_ok_iff (req : SendMessageRequest) :
    ValidateSendMessage req = none ↔
      strings.TrimSpace req.Content ≠ "" ∧ runeCount req.Content ≤ 500 ∧
        req.MessageType = "text" := by
  unfold ValidateSendMessage
  by_cases hc : strings.TrimSpace req.Content = ""
  · simp [hc]
  · by_cases hm : req.MessageType = "text"
    · have h2 : strings.TrimSpace "text" ≠ "" := by decide
      simp [hc, hm, h2, model.TextMessageType]
    · by_cases hb : strings.TrimSpace req.MessageType = ""
      · simp [hc, hm, hb]
      · by_cases hl : runeCount req.Content ≤ 500
        · have hl2 : ¬ runeCount req.Content > 500 := by omega
          simp [hc, hm, hb, hl, hl2, model.TextMessageType]
        · have hl2 : runeCount req.Content > 500 := by omega
          simp [hc, hm, hb, hl, hl2]

end validator

/-! ### Rejection before any call -/

/-- C5: in `CreateStream` and `SendMessage`, with a caller id in the context, a
body that fails to decode or that the validator rejects gets status 400 and the
trace is left as it was: no identity-service, transaction, repository or broker
call is made. -/
theorem rejected_request_makes_no_call (h : Handler) (rt : Runtime) (caller streamId : String)
    (t : Trace) (cbody : Option CreateStreamRequest) (sbody : Option SendMessageRequest)
    (hc : ∀ req, cbody = some req → h.validator.ValidateCreateStream req caller ≠ none)
    (hs : ∀ req, sbody = some req → h.validator.ValidateSendMessage req ≠ none) :
    (∃ msg, h.CreateStream cbody (some caller) t = (.returned ⟨400, .Error msg⟩, t)) ∧
    (∃ msg, h.SendMessage rt sbody (some caller) streamId t
      = (.returned ⟨400, .Error msg⟩, t)) := by
  constructor
  · cases cbody with
    | none => exact ⟨_, rfl⟩
    | some req =>
      have h1 := hc req rfl
      cases hv : h.validator.ValidateCreateStream req caller with
      | none => exact absurd hv h1
      | some err =>
        refine ⟨"stream validation failed: " ++ err, ?_⟩
        simp [Handler.CreateStream, hv, writeError, http.StatusBadRequest]
  · cases sbody with
    | none => exact ⟨_, rfl⟩
    | some req =>
      have h1 := hs req rfl
      cases hv : h.validator.ValidateSendMessage req with
      | none => exact absurd hv h1
      | some err =>
        refine ⟨"message validation failed: " ++ err, ?_⟩
        simp [Handler.SendMessage, hv, writeError, http.StatusBadRequest]

/-- Instance of C5: a request of the unsupported type "group" to `CreateStream` and an
undecodable body to `SendMessage`, from the empty trace. -/
theorem rejected_request_makes_no_call_witness :
    (∃ msg, (sample.handler (fun _ _ => true)).CreateStream (some ⟨"group", [], "", ""⟩) (some sample.alice) []
      = (.returned ⟨400, .Error msg⟩, [])) ∧
    (∃ msg, (sample.handler (fun _ _ => true)).SendMessage sample.runtime none (some sample.alice)
      sample.stream [] = (.returned ⟨400, .Error msg⟩, [])) :=
  rejected_request_makes_no_call (sample.handler (fun _ _ => true)) sample.runtime sample.alice sample.stream []
    (some ⟨"group", [], "", ""⟩) none
    (by intro req hreq; cases hreq; decide)
    (by intro req hreq; cases hreq)

/-! ### The message-send workflow -/

namespace SendMessage

theorem withReferences_keeps (req : SendMessageRequest) (m0 : model.Message) :
    (withReferences req m0).2.ID = m0.ID ∧ (withReferences req m0).2.StreamID = m0.StreamID ∧
      (withReferences req m0).2.SentAt = m0.SentAt := by
  unfold withReferences
  cases req.ParentId with
  | none =>
    cases req.RootId with
    | none => simp
    | some q =>
      by_cases hq : q = ""
      · simp [hq]
      · cases hm : uuid.MustParse q <;> simp [hq, hm]
  | some p =>
    by_cases hp : p = ""
    · cases req.RootId with
      | none => simp [hp]
      | some q =>
        by_cases hq : q = ""
        · simp [hp, hq]
        · cases hm : uuid.MustParse q <;> simp [hp, hq, hm]
    · cases hmp : uuid.MustParse p with
      | panicked msg => simp [hp, hmp]
      | returned pu =>
        cases req.RootId with
        | none => simp [hp, hmp]
        | some q =>
          by_cases hq : q = ""
          · simp [hp, hmp, hq]
          · cases hm : uuid.MustParse q <;> simp [hp, hmp, hq, hm]

/-- The ways the unit of work of `SendMessage` can end, with the calls it made. -/
theorem unitOfWork_cases (h : Handler) (rt : Runtime) (req : SendMessageRequest)
    (streamId senderID : String) (message : model.Message) (t : Trace) :
    (∃ b err msg, unitOfWork h rt req streamId senderID message t
        = (.returned (some msg), message,
            t ++ [Event.IsStreamMember streamId senderID b (some err)])) ∨
    (∃ msg, unitOfWork h rt req streamId senderID message t
        = (.returned (some msg), message,
            t ++ [Event.IsStreamMember streamId senderID false none])) ∨
    (∃ msg m, unitOfWork h rt req streamId senderID message t
        = (.panicked msg, m, t ++ [Event.IsStreamMember streamId senderID true none])) ∨
    (∃ sid m err msg, uuid.Parse streamId = some sid ∧ m.StreamID = sid ∧
        unitOfWork h rt req streamId senderID message t
        = (.returned (some msg), m,
            t ++ [Event.IsStreamMember streamId senderID true none,
              Event.SaveMessage m (some err)])) ∨
    (∃ sid m, uuid.Parse streamId = some sid ∧ m.StreamID = sid ∧
        unitOfWork h rt req streamId senderID message t
        = (.returned none, m,
            t ++ [Event.IsStreamMember streamId senderID true none,
              Event.SaveMessage m none])) := by
  unfold unitOfWork
  rcases hr : h.repository.IsStreamMember t streamId senderID with ⟨b, e⟩
  cases e with
  | some err => exact Or.inl ⟨b, err, _, rfl⟩
  | none =>
    cases b with
    | false => exact Or.inr (Or.inl ⟨_, rfl⟩)
    | true =>
      simp only [Bool.not_true, Bool.false_eq_true, if_false]
      cases hs : uuid.Parse streamId with
      | none =>
        exact Or.inr (Or.inr (Or.inl
          ⟨"uuid: Parse(" ++ streamId ++ ")", message, by simp [uuid.MustParse, hs]⟩))
      | some sid =>
        cases hu : uuid.Parse senderID with
        | none =>
          exact Or.inr (Or.inr (Or.inl
            ⟨"uuid: Parse(" ++ senderID ++ ")", message, by simp [uuid.MustParse, hs, hu]⟩))
        | some uid =>
          simp only [uuid.MustParse, hs, hu]
          generalize hm0 : newMessage req
            (rt.New (t ++ [Event.IsStreamMember streamId senderID true none])) sid uid
            (rt.Now (t ++ [Event.IsStreamMember streamId senderID true none])) = m0
          have hk := (withReferences_keeps req m0).2.1
          rcases hw : withReferences req m0 with ⟨c, m1⟩
          rw [hw] at hk
          have hsid : m1.StreamID = sid := by rw [hk, ← hm0]; rfl
          cases c with
          | panicked msg => exact Or.inr (Or.inr (Or.inl ⟨msg, m1, rfl⟩))
          | returned u =>
            simp only
            cases he : h.repository.SaveMessage
                (t ++ [Event.IsStreamMember streamId senderID true none]) m1 with
            | some err =>
              exact Or.inr (Or.inr (Or.inr (Or.inl
                ⟨sid, m1, err, "failed to save message: " ++ err, rfl, hsid, by simp⟩)))
            | none =>
              exact Or.inr (Or.inr (Or.inr (Or.inr ⟨sid, m1, rfl, hsid, by simp⟩)))

/-- The ways `tx.TxExecute` over the unit of work of `SendMessage` can end. -/
theorem txExecute_cases (h : Handler) (rt : Runtime) (req : SendMessageRequest)
    (streamId senderID : String) (t : Trace) :
    (∃ c m evs, c ≠ .returned none ∧ publishCalls evs = [] ∧
        (∀ s u, Event.IsStreamMember s u false none ∈ evs →
          (∃ msg, c = .returned (some msg)) ∧ saveCalls evs = []) ∧
        tx.TxExecute (unitOfWork h rt req streamId senderID) model.Message.zero t
          = (c, m, t ++ evs)) ∨
    (∃ sid m, uuid.Parse streamId = some sid ∧ m.StreamID = sid ∧
        tx.TxExecute (unitOfWork h rt req streamId senderID) model.Message.zero t
          = (.returned none, m,
              t ++ [Event.TxBegin, Event.IsStreamMember streamId senderID true none,
                Event.SaveMessage m none, Event.TxCommit])) := by
  unfold tx.TxExecute
  rcases unitOfWork_cases h rt req streamId senderID model.Message.zero (t ++ [Event.TxBegin])
    with ⟨b, err, msg, hu⟩ | ⟨msg, hu⟩ | ⟨msg, m, hu⟩ | ⟨sid, m, err, msg, _, _, hu⟩ |
      ⟨sid, m, hs, hm, hu⟩
  · left
    refine ⟨.returned (some msg), model.Message.zero,
      [Event.TxBegin, Event.IsStreamMember streamId senderID b (some err), Event.TxRollback],
      by simp, by simp [publishCalls], by simp, ?_⟩
    rw [hu]; simp
  · left
    refine ⟨.returned (some msg), model.Message.zero,
      [Event.TxBegin, Event.IsStreamMember streamId senderID false none, Event.TxRollback],
      by simp, by simp [publishCalls], by simp [saveCalls], ?_⟩
    rw [hu]; simp
  · left
    refine ⟨.panicked msg, m,
      [Event.TxBegin, Event.IsStreamMember streamId senderID true none, Event.TxRollback],
      by simp, by simp [publishCalls], by simp, ?_⟩
    rw [hu]; simp
  · left
    refine ⟨.returned (some msg), m,
      [Event.TxBegin, Event.IsStreamMember streamId senderID true none,
        Event.SaveMessage m (some err), Event.TxRollback],
      by simp, by simp [publishCalls], by simp, ?_⟩
    rw [hu]; simp
  · right
    refine ⟨sid, m, hs, hm, ?_⟩
    rw [hu]; simp

end SendMessage

/-- The handler `SendMessage` on a decoded, validated request with a caller id:
what it returns in terms of what `tx.TxExecute` returned. -/
theorem SendMessage_after_validation (h : Handler) (rt : Runtime) (req : SendMessageRequest)
    (senderID streamId : String) (t : Trace)
    (hv : h.validator.ValidateSendMessage req = none) :
    h.SendMessage rt (some req) (some senderID) streamId t =
      match tx.TxExecute (SendMessage.unitOfWork h rt req streamId senderID)
          model.Message.zero t with
      | (.panicked msg, _, t1) => (.panicked msg, t1)
      | (.returned (some err), _, t1) =>
        (.returned ⟨500, .Error ("failed to send message: " ++ err)⟩, t1)
      | (.returned none, message, t1) =>
        (.returned ⟨200, .SendMessageResponse message.ID.String (rt.Format message.SentAt)⟩,
          t1 ++ [Event.Publish message.StreamID.String message
            (h.centrifugeClient.Publish t1 message.StreamID.String message)]) := by
  simp only [Handler.SendMessage, hv]
  rfl

/-- C6: when, during a `SendMessage` call, `IsStreamMember` answers that the
sender is not a member, the handler responds with the error status 500, and the
call makes no `SaveMessage` and no `Publish`. -/
theorem non_member_send_is_rejected (h : Handler) (rt : Runtime)
    (body : Option SendMessageRequest) (ctxUUID : Option String) (streamId : String)
    (t evs : Trace)
    (hrun : (h.SendMessage rt body ctxUUID streamId t).2 = t ++ evs)
    (hnm : ∃ s u, Event.IsStreamMember s u false none ∈ evs) :
    (∃ msg, (h.SendMessage rt body ctxUUID streamId t).1 = .returned ⟨500, .Error msg⟩) ∧
      saveCalls evs = [] ∧ publishCalls evs = [] := by
  obtain ⟨s, u, hmem⟩ := hnm
  have hnil : (h.SendMessage rt body ctxUUID streamId t).2 = t → False := by
    intro ht
    rw [ht] at hrun
    have : evs = [] := by simpa using hrun.symm
    rw [this] at hmem
    cases hmem
  cases body with
  | none => exact (hnil rfl).elim
  | some req =>
    cases ctxUUID with
    | none => exact (hnil rfl).elim
    | some senderID =>
      cases hv : h.validator.ValidateSendMessage req with
      | some err => exact (hnil (by simp [Handler.SendMessage, hv])).elim
      | none =>
        rw [SendMessage_after_validation h rt req senderID streamId t hv] at hrun ⊢
        rcases SendMessage.txExecute_cases h rt req streamId senderID t with
          ⟨c, m, evs1, hc, hp, hnon, htx⟩ | ⟨sid, m, _, _, htx⟩
        · rw [htx] at hrun ⊢
          cases c with
          | panicked msg =>
            have he : evs1 = evs := by simpa using hrun
            subst he
            obtain ⟨⟨msg1, hm1⟩, _⟩ := hnon s u hmem
            cases hm1
          | returned r =>
            cases r with
            | none => exact absurd rfl hc
            | some err =>
              have he : evs1 = evs := by simpa using hrun
              subst he
              exact ⟨⟨_, rfl⟩, (hnon s u hmem).2, hp⟩
        · rw [htx] at hrun
          have he : evs = [Event.TxBegin, Event.IsStreamMember streamId senderID true none,
              Event.SaveMessage m none, Event.TxCommit,
              Event.Publish m.StreamID.String m (h.centrifugeClient.Publish
                (t ++ [Event.TxBegin, Event.IsStreamMember streamId senderID true none,
                  Event.SaveMessage m none, Event.TxCommit]) m.StreamID.String m)] := by
            simpa using hrun.symm
          rw [he] at hmem
          simp at hmem

/-- Instance of C6: a valid message from a caller the repository does not report as a
member. -/
theorem non_member_send_is_rejected_witness :
    ((sample.handler (fun _ _ => false)).SendMessage sample.runtime (some sample.hello)
        (some sample.alice) sample.stream []).2
      = [] ++ [Event.TxBegin, Event.IsStreamMember sample.stream sample.alice false none,
          Event.TxRollback] ∧
    (∃ msg, ((sample.handler (fun _ _ => false)).SendMessage sample.runtime
        (some sample.hello) (some sample.alice) sample.stream []).1
      = .returned ⟨500, .Error msg⟩) ∧
    saveCalls [Event.TxBegin, Event.IsStreamMember sample.stream sample.alice false none,
      Event.TxRollback] = [] ∧
    publishCalls [Event.TxBegin, Event.IsStreamMember sample.stream sample.alice false none,
      Event.TxRollback] = [] :=
  ⟨by decide,
    non_member_send_is_rejected (sample.handler (fun _ _ => false)) sample.runtime
      (some sample.hello) (some sample.alice) sample.stream []
      [Event.TxBegin, Event.IsStreamMember sample.stream sample.alice false none,
        Event.TxRollback]
      (by decide) ⟨sample.stream, sample.alice, by decide⟩⟩

/-- C9: once the transaction of a `SendMessage` call has succeeded, the response
is status 200 with the id and the formatted sent time of the saved message,
whatever the broker does: with any broker `c`, failing or not, the result of
`Publish` appears only in the trace, after the commit, and the save stays. -/
theorem publish_result_does_not_change_response (h : Handler) (rt : Runtime)
    (req : SendMessageRequest) (senderID streamId : String) (t t1 : Trace)
    (message : model.Message) (c : CetrifugeClient)
    (hv : h.validator.ValidateSendMessage req = none)
    (htx : tx.TxExecute (SendMessage.unitOfWork h rt req streamId senderID)
      model.Message.zero t = (.returned none, message, t1)) :
    ({ h with centrifugeClient := c }).SendMessage rt (some req) (some senderID) streamId t
      = (.returned ⟨200, .SendMessageResponse message.ID.String (rt.Format message.SentAt)⟩,
          t1 ++ [Event.Publish message.StreamID.String message
            (c.Publish t1 message.StreamID.String message)]) ∧
    Event.SaveMessage message none ∈ t1 ∧ t1.getLast? = some Event.TxCommit := by
  have hv1 : ({ h with centrifugeClient := c } : Handler).validator.ValidateSendMessage req
      = none := hv
  have hu : SendMessage.unitOfWork { h with centrifugeClient := c } rt req streamId senderID
      = SendMessage.unitOfWork h rt req streamId senderID := rfl
  refine ⟨?_, ?_⟩
  · rw [SendMessage_after_validation _ rt req senderID streamId t hv1, hu, htx]
  · rcases SendMessage.txExecute_cases h rt req streamId senderID t with
      ⟨c1, m, evs1, hc, _, _, h1⟩ | ⟨sid, m, _, _, h1⟩
    · rw [htx] at h1
      have : c1 = .returned none := by
        have := congrArg Prod.fst h1
        simpa using this.symm
      exact absurd this hc
    · rw [htx] at h1
      have hm : message = m := by
        have := congrArg (fun x => x.2.1) h1
        simpa using this
      have ht1 : t1 = t ++ [Event.TxBegin, Event.IsStreamMember streamId senderID true none,
          Event.SaveMessage m none, Event.TxCommit] := by
        have := congrArg (fun x => x.2.2) h1
        simpa using this
      subst hm
      rw [ht1]
      constructor
      · simp
      · simp [List.getLast?_append]

/-- Instance of C9: a valid message from a member, with a broker whose publish fails. -/
theorem publish_result_does_not_change_response_witness :
    (sample.handler (fun _ _ => true)).validator.ValidateSendMessage sample.hello = none ∧
    (({ sample.handler (fun _ _ => true) with
          centrifugeClient := sample.brokenCentrifugeClient } : Handler).SendMessage
        sample.runtime (some sample.hello) (some sample.alice) sample.stream []).1
      = .returned ⟨200, .SendMessageResponse "01020304-0506-0708-090a-0b0c0d0e0f10"
          "1970-01-01T00:00:00Z"⟩ :=
  ⟨by decide,
    (congrArg Prod.fst (publish_result_does_not_change_response
      (sample.handler (fun _ _ => true)) sample.runtime sample.hello sample.alice
      sample.stream []
      (tx.TxExecute (SendMessage.unitOfWork (sample.handler (fun _ _ => true)) sample.runtime
        sample.hello sample.stream sample.alice) model.Message.zero []).2.2
      (tx.TxExecute (SendMessage.unitOfWork (sample.handler (fun _ _ => true)) sample.runtime
        sample.hello sample.stream sample.alice) model.Message.zero []).2.1
      sample.brokenCentrifugeClient (by decide) (by decide)).1).trans (by decide)⟩

/-- C10, as amended: for a decoded, validated request with a caller id,
`SendMessage` calls `Publish` exactly once when its transaction succeeded and
never otherwise; the channel is the canonical string form of the UUID parsed
from the stream id of the request path, and the message published is the one
passed to `SaveMessage`, whose id is the `messageId` of the response. -/
theorem publish_once_on_canonical_channel (h : Handler) (rt : Runtime)
    (req : SendMessageRequest) (senderID streamId : String) (t : Trace)
    (hv : h.validator.ValidateSendMessage req = none) :
    ∃ evs, (h.SendMessage rt (some req) (some senderID) streamId t).2 = t ++ evs ∧
      (((tx.TxExecute (SendMessage.unitOfWork h rt req streamId senderID)
            model.Message.zero t).1 = .returned none ∧
          ∃ sid message, uuid.Parse streamId = some sid ∧
            publishCalls evs = [(sid.String, message)] ∧ saveCalls evs = [message] ∧
            (h.SendMessage rt (some req) (some senderID) streamId t).1
              = .returned ⟨200,
                  .SendMessageResponse message.ID.String (rt.Format message.SentAt)⟩) ∨
        ((tx.TxExecute (SendMessage.unitOfWork h rt req streamId senderID)
            model.Message.zero t).1 ≠ .returned none ∧ publishCalls evs = [])) := by
  rw [SendMessage_after_validation h rt req senderID streamId t hv]
  rcases SendMessage.txExecute_cases h rt req streamId senderID t with
    ⟨c, m, evs1, hc, hp, _, htx⟩ | ⟨sid, m, hs, hm, htx⟩
  · rw [htx]
    refine ⟨evs1, ?_, Or.inr ⟨hc, hp⟩⟩
    cases c with
    | panicked msg => rfl
    | returned r =>
      cases r with
      | none => exact absurd rfl hc
      | some err => rfl
  · rw [htx]
    refine ⟨[Event.TxBegin, Event.IsStreamMember streamId senderID true none,
      Event.SaveMessage m none, Event.TxCommit,
      Event.Publish m.StreamID.String m (h.centrifugeClient.Publish
        (t ++ [Event.TxBegin, Event.IsStreamMember streamId senderID true none,
          Event.SaveMessage m none, Event.TxCommit]) m.StreamID.String m)], by simp, Or.inl ?_⟩
    refine ⟨rfl, sid, m, hs, ?_, ?_, rfl⟩
    · simp [publishCalls, hm]
    · simp [saveCalls]

/-- Instance of C10 as amended: a valid message from a member, the stream id of the
path written in upper case. -/
theorem publish_once_on_canonical_channel_witness :
    (sample.handler (fun _ _ => true)).validator.ValidateSendMessage sample.hello = none ∧
    ∃ evs, ((sample.handler (fun _ _ => true)).SendMessage sample.runtime (some sample.hello)
        (some sample.alice) sample.streamUpper []).2 = [] ++ evs ∧
      (((tx.TxExecute (SendMessage.unitOfWork (sample.handler (fun _ _ => true))
            sample.runtime sample.hello sample.streamUpper sample.alice)
            model.Message.zero []).1 = .returned none ∧
          ∃ sid message, uuid.Parse sample.streamUpper = some sid ∧
            publishCalls evs = [(sid.String, message)] ∧ saveCalls evs = [message] ∧
            ((sample.handler (fun _ _ => true)).SendMessage sample.runtime (some sample.hello)
                (some sample.alice) sample.streamUpper []).1
              = .returned ⟨200, .SendMessageResponse message.ID.String
                  (sample.runtime.Format message.SentAt)⟩) ∨
        ((tx.TxExecute (SendMessage.unitOfWork (sample.handler (fun _ _ => true))
            sample.runtime sample.hello sample.streamUpper sample.alice)
            model.Message.zero []).1 ≠ .returned none ∧ publishCalls evs = [])) :=
  ⟨by decide,
    publish_once_on_canonical_channel (sample.handler (fun _ _ => true)) sample.runtime
      sample.hello sample.alice sample.streamUpper [] (by decide)⟩

/-- C10, the claim as stated fails: for the stream id written in upper case in
the request path, the transaction succeeds (status 200) and the one `Publish`
call is made on the lower-case channel, which is not the string of the path. -/
theorem publish_channel_differs_from_path :
    (((sample.handler (fun _ _ => true)).SendMessage sample.runtime (some sample.hello)
        (some sample.alice) sample.streamUpper []).1
      = .returned ⟨200, .SendMessageResponse "01020304-0506-0708-090a-0b0c0d0e0f10"
          "1970-01-01T00:00:00Z"⟩) ∧
    (publishCalls ((sample.handler (fun _ _ => true)).SendMessage sample.runtime
        (some sample.hello) (some sample.alice) sample.streamUpper []).2).map Prod.fst
      = ["a0eebc99-9c0b-4ef8-bb6d-6bb9bd380a11"] ∧
    sample.streamUpper = "A0EEBC99-9C0B-4EF8-BB6D-6BB9BD380A11" ∧
    "a0eebc99-9c0b-4ef8-bb6d-6bb9bd380a11" ≠ sample.streamUpper := by
  decide

/-! ### The stream-creation workflow -/

namespace CreateStream

theorem mem_dropLast_cons {a e : Event} {l : List Event} (h : e ∈ (a :: l).dropLast) :
    e = a ∨ e ∈ l.dropLast := by
  cases l with
  | nil => simp at h
  | cons b l1 =>
    rw [List.dropLast_cons₂] at h
    rcases List.mem_cons.mp h with h1 | h1
    · exact Or.inl h1
    · exact Or.inr h1

/-- The user loop appends its calls to the trace, every call but the last one
returned no error, and the loop succeeds exactly when no call returned an error,
having then made two calls for each user id. -/
theorem upsertUsers_spec (h : Handler) :
    ∀ (ids : List String) (t : Trace), ∃ evs, (upsertUsers h ids t).2 = t ++ evs ∧
      (∀ e ∈ evs.dropLast, e.failed = false) ∧
      ((upsertUsers h ids t).1 = none ↔ ∀ e ∈ evs, e.failed = false) ∧
      ((upsertUsers h ids t).1 = none → evs.length = 2 * ids.length) := by
  intro ids
  induction ids with
  | nil => intro t; exact ⟨[], by simp [upsertUsers]⟩
  | cons userID rest ih =>
    intro t
    rcases hr : h.userClient.GetUserInfoByUUID t userID with ⟨info, e1⟩
    cases e1 with
    | some err =>
      refine ⟨[Event.GetUserInfoByUUID userID info (some err)], ?_⟩
      simp [upsertUsers, hr, Event.failed, Event.err]
    | none =>
      cases he : h.repository.AddNewUser (t ++ [Event.GetUserInfoByUUID userID info none]) info with
      | some err =>
        refine ⟨[Event.GetUserInfoByUUID userID info none, Event.AddNewUser info (some err)], ?_⟩
        simp [upsertUsers, hr, he, Event.failed, Event.err]
      | none =>
        obtain ⟨evs, h1, h2, h3, h4⟩ := ih (t ++ [Event.GetUserInfoByUUID userID info none] ++
          [Event.AddNewUser info none])
        refine ⟨Event.GetUserInfoByUUID userID info none :: Event.AddNewUser info none :: evs,
          ?_, ?_, ?_, ?_⟩
        · simpa [upsertUsers, hr, he] using h1
        · intro e hmem
          rcases mem_dropLast_cons hmem with h5 | h5
          · subst h5; rfl
          · rcases mem_dropLast_cons h5 with h6 | h6
            · subst h6; rfl
            · exact h2 e h6
        · simp only [upsertUsers, hr, he]
          rw [h3]
          simp [Event.failed, Event.err]
        · simp only [upsertUsers, hr, he]
          intro h5
          have h6 := h4 h5
          simp only [List.length_cons, h6]
          omega

theorem dropLast_append_ok (users tail : List Event)
    (hu : ∀ e ∈ users, e.failed = false) (ht : ∀ e ∈ tail.dropLast, e.failed = false) :
    ∀ e ∈ (users ++ tail).dropLast, e.failed = false := by
  intro e he
  by_cases hnil : tail = []
  · subst hnil
    rw [List.append_nil] at he
    exact hu e (List.mem_of_mem_dropLast he)
  · rw [List.dropLast_append_of_ne_nil _ hnil] at he
    rcases List.mem_append.mp he with h1 | h1
    · exact hu e h1
    · exact ht e h1

theorem some_eq_none_iff_all_ok (err : String) (evs : List Event) (e : Event) (he : e ∈ evs)
    (hf : e.failed = true) : (some err = none ↔ ∀ x ∈ evs, x.failed = false) := by
  constructor
  · intro h; cases h
  · intro hall
    rw [hall e he] at hf
    cases hf

/-- The unit of work of `CreateStream` never panics; it appends its calls to the
trace; every call but the last one returned no error; it returns no error
exactly when no call returned an error, and then it made, after two calls for
each user id, the stream insert, the membership insert and the subscription
insert, in this order. -/
theorem unitOfWork_spec (h : Handler) (req : CreateStreamRequest) (creatorID s : String)
    (t : Trace) :
    ∃ res sid evs, unitOfWork h req creatorID s t = (.returned res, sid, t ++ evs) ∧
      (∀ e ∈ evs.dropLast, e.failed = false) ∧
      (res = none ↔ ∀ e ∈ evs, e.failed = false) ∧
      (res = none → ∃ users, users.length = 2 * (allUserIDs req creatorID).length ∧
        evs = users ++ [Event.CreateStream req.Type_ req.ChatMetadata creatorID sid none,
          Event.AddStreamMembers sid (members req creatorID) none,
          Event.AddUserSubscriptions (subscriptions (members req creatorID) sid) none]) := by
  obtain ⟨users, h1, h2, h3, h4⟩ := upsertUsers_spec h (allUserIDs req creatorID) t
  rcases hu : upsertUsers h (allUserIDs req creatorID) t with ⟨ures, ut⟩
  rw [hu] at h1 h3 h4
  simp only at h1 h3 h4
  subst h1
  cases ures with
  | some err =>
    refine ⟨some err, s, users, by simp [unitOfWork, hu], h2, ?_, by simp⟩
    rw [← h3]
  | none =>
    have hok : ∀ e ∈ users, e.failed = false := h3.mp rfl
    have hlen := h4 rfl
    rcases hc : h.repository.CreateStream (t ++ users) req.Type_ req.ChatMetadata creatorID
      with ⟨sid, ce⟩
    cases ce with
    | some err =>
      refine ⟨some err, sid,
        users ++ [Event.CreateStream req.Type_ req.ChatMetadata creatorID sid (some err)],
        by simp [unitOfWork, hu, hc], ?_, ?_, by simp⟩
      · exact dropLast_append_ok users _ hok (by simp)
      · exact some_eq_none_iff_all_ok err _
          (Event.CreateStream req.Type_ req.ChatMetadata creatorID sid (some err))
          (by simp) rfl
    | none =>
      cases hm : h.repository.AddStreamMembers
          (t ++ (users ++ [Event.CreateStream req.Type_ req.ChatMetadata creatorID sid none]))
          sid (members req creatorID) with
      | some err =>
        refine ⟨some err, sid,
          users ++ [Event.CreateStream req.Type_ req.ChatMetadata creatorID sid none,
            Event.AddStreamMembers sid (members req creatorID) (some err)],
          by simp [unitOfWork, hu, hc, hm], ?_, ?_, by simp⟩
        · exact dropLast_append_ok users _ hok (by simp [Event.failed, Event.err])
        · exact some_eq_none_iff_all_ok err _
            (Event.AddStreamMembers sid (members req creatorID) (some err)) (by simp) rfl
      | none =>
        cases hsub : h.repository.AddUserSubscriptions
            (t ++ (users ++ [Event.CreateStream req.Type_ req.ChatMetadata creatorID sid none,
              Event.AddStreamMembers sid (members req creatorID) none]))
            (subscriptions (members req creatorID) sid) with
        | some err =>
          refine ⟨some err, sid,
            users ++ [Event.CreateStream req.Type_ req.ChatMetadata creatorID sid none,
              Event.AddStreamMembers sid (members req creatorID) none,
              Event.AddUserSubscriptions (subscriptions (members req creatorID) sid)
                (some err)],
            by simp [unitOfWork, hu, hc, hm, hsub], ?_, ?_, by simp⟩
          · exact dropLast_append_ok users _ hok (by simp [Event.failed, Event.err])
          · exact some_eq_none_iff_all_ok err _
              (Event.AddUserSubscriptions (subscriptions (members req creatorID) sid)
                (some err)) (by simp) rfl
        | none =>
          refine ⟨none, sid,
            users ++ [Event.CreateStream req.Type_ req.ChatMetadata creatorID sid none,
              Event.AddStreamMembers sid (members req creatorID) none,
              Event.AddUserSubscriptions (subscriptions (members req creatorID) sid) none],
            by simp [unitOfWork, hu, hc, hm, hsub], ?_, ?_, ?_⟩
          · exact dropLast_append_ok users _ hok (by simp [Event.failed, Event.err])
          · simp only [true_iff]
            intro e he
            rcases List.mem_append.mp he with h5 | h5
            · exact hok e h5
            · simp at h5
              rcases h5 with h5 | h5 | h5 <;> subst h5 <;> rfl
          · intro _
            exact ⟨users, hlen, rfl⟩

end CreateStream

/-- C4: in the unit of work that `CreateStream` runs for a validated request, no
step panics, every step but the last performed one succeeded (a failed step is
the last one: no later step is performed), and the unit of work returns no error
exactly when no step failed, having then performed every step (two calls for
each user id, the stream insert, the membership insert, the subscription insert);
when it returns an error the handler responds with status 500 and an error body,
after the rollback. -/
theorem CreateStream_stops_at_first_error (h : Handler) (req : CreateStreamRequest)
    (creatorID : String) (t : Trace)
    (hv : h.validator.ValidateCreateStream req creatorID = none) :
    ∃ res sid evs,
      CreateStream.unitOfWork h req creatorID "" (t ++ [Event.TxBegin])
        = (.returned res, sid, t ++ [Event.TxBegin] ++ evs) ∧
      (∀ e ∈ evs.dropLast, e.failed = false) ∧
      (res = none ↔ ∀ e ∈ evs, e.failed = false) ∧
      (res = none → ∃ users,
        users.length = 2 * (CreateStream.allUserIDs req creatorID).length ∧
        evs = users ++ [Event.CreateStream req.Type_ req.ChatMetadata creatorID sid none,
          Event.AddStreamMembers sid (CreateStream.members req creatorID) none,
          Event.AddUserSubscriptions
            (CreateStream.subscriptions (CreateStream.members req creatorID) sid) none]) ∧
      (res ≠ none → ∃ msg, h.CreateStream (some req) (some creatorID) t
        = (.returned ⟨500, .Error msg⟩, t ++ [Event.TxBegin] ++ evs ++ [Event.TxRollback])) := by
  obtain ⟨res, sid, evs, h1, h2, h3, h4⟩ :=
    CreateStream.unitOfWork_spec h req creatorID "" (t ++ [Event.TxBegin])
  refine ⟨res, sid, evs, h1, h2, h3, h4, ?_⟩
  intro hres
  cases res with
  | none => exact absurd rfl hres
  | some err =>
    refine ⟨"failed to create stream: " ++ err, ?_⟩
    simp only [Handler.CreateStream, hv, tx.TxExecute, h1]
    rfl

/-- Instance of C4: a valid private request while the identity service is unreachable. -/
theorem CreateStream_stops_at_first_error_witness :
    ({ sample.handler (fun _ _ => true) with userClient := sample.offlineUserClient }
      : Handler).validator.ValidateCreateStream sample.onlyBob sample.alice = none ∧
    ∃ res sid evs,
      CreateStream.unitOfWork
          { sample.handler (fun _ _ => true) with userClient := sample.offlineUserClient }
          sample.onlyBob sample.alice "" ([] ++ [Event.TxBegin])
        = (.returned res, sid, [] ++ [Event.TxBegin] ++ evs) ∧
      (∀ e ∈ evs.dropLast, e.failed = false) ∧
      (res = none ↔ ∀ e ∈ evs, e.failed = false) ∧
      (res = none → ∃ users,
        users.length = 2 * (CreateStream.allUserIDs sample.onlyBob sample.alice).length ∧
        evs = users ++ [Event.CreateStream sample.onlyBob.Type_ sample.onlyBob.ChatMetadata
            sample.alice sid none,
          Event.AddStreamMembers sid (CreateStream.members sample.onlyBob sample.alice) none,
          Event.AddUserSubscriptions
            (CreateStream.subscriptions (CreateStream.members sample.onlyBob sample.alice) sid)
            none]) ∧
      (res ≠ none → ∃ msg,
        ({ sample.handler (fun _ _ => true) with userClient := sample.offlineUserClient }
          : Handler).CreateStream (some sample.onlyBob) (some sample.alice) []
        = (.returned ⟨500, .Error msg⟩, [] ++ [Event.TxBegin] ++ evs ++ [Event.TxRollback])) :=
  ⟨by decide,
    CreateStream_stops_at_first_error
      { sample.handler (fun _ _ => true) with userClient := sample.offlineUserClient }
      sample.onlyBob sample.alice [] (by decide)⟩

/-- C3, on a request that names the same participant twice: the validator
accepts it, every lookup and repository call succeeds, the handler responds 200,
and it passes three membership rows (the participant twice) to
`AddStreamMembers` and three subscription rows to `AddUserSubscriptions`. -/
theorem duplicate_participant_gives_three_members :
    validator.ValidateCreateStream sample.twiceBob sample.alice = none ∧
    ((sample.handler (fun _ _ => true)).CreateStream (some sample.twiceBob)
        (some sample.alice) []).1
      = .returned ⟨200, .CreateStreamResponse "stream-1"⟩ ∧
    memberCalls ((sample.handler (fun _ _ => true)).CreateStream (some sample.twiceBob)
        (some sample.alice) []).2
      = [[⟨sample.alice, "creator"⟩, ⟨sample.bob, ""⟩, ⟨sample.bob, "again"⟩]] ∧
    subscriptionCalls ((sample.handler (fun _ _ => true)).CreateStream (some sample.twiceBob)
        (some sample.alice) []).2
      = [[⟨sample.alice, "stream-1"⟩, ⟨sample.bob, "stream-1"⟩, ⟨sample.bob, "stream-1"⟩]] := by
  decide

/-- C7, on a validated request of a caller who is not a member: `SendMessage`
responds with status 500, the status of a dependency failure, where
`GetStreamSubscribeToken` responds with 403 for the same caller and stream. -/
theorem non_member_send_status_is_500 :
    ((sample.handler (fun _ _ => false)).SendMessage sample.runtime (some sample.hello)
        (some sample.alice) sample.stream []).1
      = .returned ⟨500, .Error "failed to send message: user is not a member of this stream"⟩ ∧
    ((sample.handler (fun _ _ => false)).GetStreamSubscribeToken (some sample.alice)
        sample.stream []).1
      = .returned ⟨403, .Error "user is not a member of the stream"⟩ := by
  decide

/-- C8, on a table whose only row for alice and the stream has a leave time:
the query of `IsStreamMember` answers true, where `GetUserActiveStreams` lists
no stream for her; with this answer she gets status 200 from `SendMessage` and
from `GetStreamSubscribeToken`. -/
theorem member_who_left_is_still_reported :
    postgres.Repository.IsStreamMember sample.aliceLeft sample.stream sample.alice = true ∧
    postgres.Repository.GetUserActiveStreams sample.aliceLeft sample.alice = [] ∧
    ((sample.handler (postgres.Repository.IsStreamMember sample.aliceLeft)).SendMessage
        sample.runtime (some sample.hello) (some sample.alice) sample.stream []).1
      = .returned ⟨200, .SendMessageResponse "01020304-0506-0708-090a-0b0c0d0e0f10"
          "1970-01-01T00:00:00Z"⟩ ∧
    ((sample.handler (postgres.Repository.IsStreamMember sample.aliceLeft)).GetStreamSubscribeToken
        (some sample.alice) sample.stream []).1
      = .returned ⟨200, .GetStreamSubscribeTokenResponse "subscribe-token" 1800 sample.stream⟩ := by
  decide

/-! ### Malformed references and the stored sent time -/

/-- C11, on a valid message of a member whose `parentId` is `not-a-uuid`: the
validator accepts it, and the handler panics in `uuid.MustParse` inside the unit
of work; there is no response, hence no 4xx, and no `SaveMessage` call. -/
theorem malformed_parent_id_panics :
    validator.ValidateSendMessage sample.badParent = none ∧
    (sample.handler (fun _ _ => true)).SendMessage sample.runtime (some sample.badParent)
        (some sample.alice) sample.stream []
      = (.panicked "uuid: Parse(not-a-uuid)",
          [Event.TxBegin, Event.IsStreamMember sample.stream sample.alice true none,
            Event.TxRollback]) := by
  decide

/-- C12, on a valid message of a member: the message handed to `SaveMessage`
carries the time stamped by the handler (the clock of the sample runtime, 0) and
the response reports that time, but the row the insert statement of
`SaveMessage` creates carries the time the database gives `sent_at`, here one
second later; in general the row does not depend on `message.SentAt`. -/
theorem stored_sent_time_is_not_the_stamped_one :
    (saveCalls ((sample.handler (fun _ _ => true)).SendMessage sample.runtime
        (some sample.hello) (some sample.alice) sample.stream []).2).map
          (fun m => m.SentAt) = [⟨0⟩] ∧
    ((sample.handler (fun _ _ => true)).SendMessage sample.runtime
        (some sample.hello) (some sample.alice) sample.stream []).1
      = .returned ⟨200, .SendMessageResponse "01020304-0506-0708-090a-0b0c0d0e0f10"
          (sample.runtime.Format ⟨0⟩)⟩ ∧
    (saveCalls ((sample.handler (fun _ _ => true)).SendMessage sample.runtime
        (some sample.hello) (some sample.alice) sample.stream []).2).map
          (fun m => (postgres.Repository.SaveMessage sample.databaseClock [] m).map
            (fun row => row.sent_at)) = [[⟨1000000000⟩]] ∧
    (∀ (sentAtDefault stamped : Time) (rows : List postgres.MessageRow) (m : model.Message),
      postgres.Repository.SaveMessage sentAtDefault rows { m with SentAt := stamped }
        = postgres.Repository.SaveMessage sentAtDefault rows m) := by
  refine ⟨by decide, by decide, by decide, ?_⟩
  intro sentAtDefault stamped rows m
  rfl

/-! ### Subscribe tokens -/

/-- C17: `GetStreamSubscribeToken` answers 403 and makes no call to
`GenerateSubscribeToken` when `IsStreamMember` answers false; when it answers
true and the generation succeeds, the response is 200 with the generated token,
its expiry, and the requested stream id as channel; in every run a token is
requested only after a membership check that answered true. -/
theorem subscribe_token_only_for_members (h : Handler) (userUUID streamId : String)
    (t : Trace) :
    (h.repository.IsStreamMember t streamId userUUID = (false, none) →
      h.GetStreamSubscribeToken (some userUUID) streamId t
        = (.returned ⟨403, .Error "user is not a member of the stream"⟩,
            t ++ [Event.IsStreamMember streamId userUUID false none])) ∧
    (∀ token expiresAt, h.repository.IsStreamMember t streamId userUUID = (true, none) →
      h.jwtGenerator.GenerateSubscribeToken
          (t ++ [Event.IsStreamMember streamId userUUID true none]) userUUID streamId
        = (token, expiresAt, none) →
      h.GetStreamSubscribeToken (some userUUID) streamId t
        = (.returned ⟨200, .GetStreamSubscribeTokenResponse token expiresAt streamId⟩,
            t ++ [Event.IsStreamMember streamId userUUID true none,
              Event.GenerateSubscribeToken userUUID streamId token expiresAt none])) ∧
    (∃ evs, (h.GetStreamSubscribeToken (some userUUID) streamId t).2 = t ++ evs ∧
      tokenRequests evs = membershipsFound evs) := by
  refine ⟨?_, ?_, ?_⟩
  · intro hf
    simp [Handler.GetStreamSubscribeToken, hf, writeError, http.StatusForbidden]
  · intro token expiresAt hm hg
    simp [Handler.GetStreamSubscribeToken, hm, hg, writeJSON, http.StatusOK]
  · rcases hr : h.repository.IsStreamMember t streamId userUUID with ⟨b, e⟩
    cases e with
    | some err =>
      refine ⟨[Event.IsStreamMember streamId userUUID b (some err)], ?_, ?_⟩
      · simp [Handler.GetStreamSubscribeToken, hr]
      · cases b <;> simp [tokenRequests, membershipsFound]
    | none =>
      cases b with
      | false =>
        refine ⟨[Event.IsStreamMember streamId userUUID false none], ?_, ?_⟩
        · simp [Handler.GetStreamSubscribeToken, hr]
        · simp [tokenRequests, membershipsFound]
      | true =>
        rcases hg : h.jwtGenerator.GenerateSubscribeToken
          (t ++ [Event.IsStreamMember streamId userUUID true none]) userUUID streamId
          with ⟨tok, exp, ge⟩
        refine ⟨[Event.IsStreamMember streamId userUUID true none,
          Event.GenerateSubscribeToken userUUID streamId tok exp ge], ?_, ?_⟩
        · cases ge <;> simp [Handler.GetStreamSubscribeToken, hr, hg]
        · simp [tokenRequests, membershipsFound]

/-- Instance of C17: a caller who is not a member, and a caller who is one. -/
theorem subscribe_token_only_for_members_witness :
    (sample.handler (fun _ _ => false)).GetStreamSubscribeToken (some sample.alice)
        sample.stream []
      = (.returned ⟨403, .Error "user is not a member of the stream"⟩,
          [] ++ [Event.IsStreamMember sample.stream sample.alice false none]) ∧
    (sample.handler (fun _ _ => true)).GetStreamSubscribeToken (some sample.alice)
        sample.stream []
      = (.returned ⟨200, .GetStreamSubscribeTokenResponse "subscribe-token" 1800 sample.stream⟩,
          [] ++ [Event.IsStreamMember sample.stream sample.alice true none,
            Event.GenerateSubscribeToken sample.alice sample.stream "subscribe-token" 1800
              none]) :=
  ⟨(subscribe_token_only_for_members (sample.handler (fun _ _ => false)) sample.alice
      sample.stream []).1 rfl,
    (subscribe_token_only_for_members (sample.handler (fun _ _ => true)) sample.alice
      sample.stream []).2.1 "subscribe-token" 1800 rfl rfl⟩

namespace jwt

theorem NewNumericDate_add_minutes (now : Time) (n : Int) :
    NewNumericDate (now.Add (n * time.Minute)) = (NewNumericDate now).Add (n * time.Minute) := by
  simp only [NewNumericDate, Time.Add, time.Minute, time.Second, Time.mk.injEq]
  omega

theorem Unix_NewNumericDate (now : Time) : (NewNumericDate now).Unix = now.Unix := by
  simp only [NewNumericDate, Time.Unix, time.Second]
  omega

theorem Unix_add_thirty_minutes (now : Time) :
    (now.Add (30 * time.Minute)).Unix = now.Unix + 1800 := by
  simp only [Time.Add, Time.Unix, time.Minute, time.Second]
  omega

end jwt

/-- C19: for a token issued at time `now`, `GenerateSubscribeToken(u, s)` signs
claims with subject `u`, `user_id` `u`, channel `s`, `stream_id` `s`, issued-at
`now` and expiry 30 minutes later (both as numeric dates, whole seconds), and
on success returns that expiry in Unix seconds, `now.Unix + 1800`;
`GenerateConnectToken(u)` signs claims with subject `u` and the same issued-at
and expiry, and returns the same expiry. -/
theorem token_claims_and_expiry (g : jwt.Generator) (sg : jwt.Signing) (now : Time)
    (u s : String) :
    (jwt.Generator.subscribeClaims now u s).RegisteredClaims.Subject = u ∧
    (jwt.Generator.subscribeClaims now u s).UserID = u ∧
    (jwt.Generator.subscribeClaims now u s).Channel = s ∧
    (jwt.Generator.subscribeClaims now u s).StreamID = s ∧
    (jwt.Generator.subscribeClaims now u s).RegisteredClaims.IssuedAt
      = some (jwt.NewNumericDate now) ∧
    (jwt.Generator.subscribeClaims now u s).RegisteredClaims.ExpiresAt
      = some ((jwt.NewNumericDate now).Add (30 * time.Minute)) ∧
    (jwt.NewNumericDate now).Unix = now.Unix ∧
    ((jwt.NewNumericDate now).Add (30 * time.Minute)).Unix = now.Unix + 1800 ∧
    g.GenerateSubscribeToken sg now u s
      = (match sg.subscribe (jwt.Generator.subscribeClaims now u s) g.secret with
          | (_, some err) => ("", 0, some ("failed to sign subscribe JWT token: " ++ err))
          | (tokenString, none) => (tokenString, now.Unix + 1800, none)) ∧
    (jwt.Generator.connectClaims now u).RegisteredClaims.Subject = u ∧
    (jwt.Generator.connectClaims now u).RegisteredClaims.IssuedAt
      = some (jwt.NewNumericDate now) ∧
    (jwt.Generator.connectClaims now u).RegisteredClaims.ExpiresAt
      = some ((jwt.NewNumericDate now).Add (30 * time.Minute)) ∧
    g.GenerateConnectToken sg now u
      = (match sg.connect (jwt.Generator.connectClaims now u) g.secret with
          | (_, some err) => ("", 0, some ("failed to sign connect JWT token: " ++ err))
          | (tokenString, none) => (tokenString, now.Unix + 1800, none)) := by
  have hexp := jwt.NewNumericDate_add_minutes now 30
  have hunix := jwt.Unix_add_thirty_minutes now
  refine ⟨rfl, rfl, rfl, rfl, rfl, ?_, jwt.Unix_NewNumericDate now, ?_, ?_, rfl, rfl, ?_, ?_⟩
  · simp only [jwt.Generator.subscribeClaims, hexp]
  · rw [← hexp, jwt.Unix_NewNumericDate, hunix]
  · simp only [jwt.Generator.GenerateSubscribeToken, hunix]
  · simp only [jwt.Generator.connectClaims, hexp]
  · simp only [jwt.Generator.GenerateConnectToken, hunix]

/-! ### Recent messages -/

theorem int32_of_range (l : Int) (h1 : -2147483648 ≤ l) (h2 : l ≤ 2147483647) :
    int32 l = l := by
  unfold int32
  omega

/-- C20, as amended: for a caller the membership check reports as a member,
`GetStreamRecentMessages` queries the repository once, with the requested stream
id, with the caller's offset or the empty offset when none is given, and with
limit 20 when none is given or else the caller's limit converted by `int32`,
which is the caller's limit itself whenever it lies in the 32-bit range. -/
theorem recent_messages_query_arguments (h : Handler) (rt : Runtime)
    (userUUID streamId : String) (params : GetStreamRecentMessagesParams) (t : Trace)
    (hm : h.repository.IsStreamMember t streamId userUUID = (true, none)) :
    ∃ evs, (h.GetStreamRecentMessages rt (some userUUID) streamId params t).2 = t ++ evs ∧
      recentMessagesCalls evs
        = [(streamId,
            (match params.Offset with
              | some o => o
              | none => ""),
            (match params.Limit with
              | some l => int32 l
              | none => 20))] ∧
      (∀ l, params.Limit = some l → -2147483648 ≤ l → l ≤ 2147483647 →
        recentMessagesCalls evs
          = [(streamId,
              (match params.Offset with
                | some o => o
                | none => ""), l)]) := by
  have h20 : int32 20 = 20 := by decide
  have key : ∃ evs, (h.GetStreamRecentMessages rt (some userUUID) streamId params t).2
      = t ++ evs ∧
      recentMessagesCalls evs
        = [(streamId,
            (match params.Offset with
              | some o => o
              | none => ""),
            (match params.Limit with
              | some l => int32 l
              | none => 20))] := by
    rcases hq : h.repository.GetStreamRecentMessages
      (t ++ [Event.IsStreamMember streamId userUUID true none]) streamId
      (match params.Offset with
        | some o => o
        | none => "")
      (match params.Limit with
        | some l => int32 l
        | none => int32 20) with ⟨ms, qe⟩
    refine ⟨[Event.IsStreamMember streamId userUUID true none,
      Event.GetStreamRecentMessages streamId
        (match params.Offset with
          | some o => o
          | none => "")
        (match params.Limit with
          | some l => int32 l
          | none => int32 20) ms qe], ?_, ?_⟩
    · cases qe with
      | some err => simp [Handler.GetStreamRecentMessages, hm, hq]
      | none => cases ms <;> simp [Handler.GetStreamRecentMessages, hm, hq]
    · cases params.Limit <;> simp [recentMessagesCalls, h20]
  obtain ⟨evs, he, hc⟩ := key
  refine ⟨evs, he, hc, ?_⟩
  intro l hl h1 h2
  rw [hc, hl]
  simp [int32_of_range l h1 h2]

/-- Instance of C20 as amended: a member asking for a page with an offset and
limit 50. -/
theorem recent_messages_query_arguments_witness :
    (sample.handler (fun _ _ => true)).repository.IsStreamMember [] sample.stream sample.alice
      = (true, none) ∧
    ∃ evs, ((sample.handler (fun _ _ => true)).GetStreamRecentMessages sample.runtime
        (some sample.alice) sample.stream sample.page []).2 = [] ++ evs ∧
      recentMessagesCalls evs
        = [(sample.stream,
            (match sample.page.Offset with
              | some o => o
              | none => ""),
            (match sample.page.Limit with
              | some l => int32 l
              | none => 20))] ∧
      (∀ l, sample.page.Limit = some l → -2147483648 ≤ l → l ≤ 2147483647 →
        recentMessagesCalls evs
          = [(sample.stream,
              (match sample.page.Offset with
                | some o => o
                | none => ""), l)]) :=
  ⟨rfl, recent_messages_query_arguments (sample.handler (fun _ _ => true)) sample.runtime
    sample.alice sample.stream sample.page [] rfl⟩

/-- C20, the claim as stated fails: a member who gives the limit 4294967316
(and no offset) has the repository queried with limit 20, not with the limit
given; with no parameter at all the query has limit 20 and the empty offset. -/
theorem recent_messages_limit_is_converted :
    recentMessagesCalls ((sample.handler (fun _ _ => true)).GetStreamRecentMessages
        sample.runtime (some sample.alice) sample.stream sample.hugeLimit []).2
      = [(sample.stream, "", 20)] ∧
    sample.hugeLimit.Limit = some 4294967316 ∧
    recentMessagesCalls ((sample.handler (fun _ _ => true)).GetStreamRecentMessages
        sample.runtime (some sample.alice) sample.stream ⟨none, none⟩ []).2
      = [(sample.stream, "", 20)] := by
  decide

/-! ### Batch subscribe tokens -/

namespace GetBatchSubscribeTokens

/-- The loop checks the membership of every id, in order; it requests a token
exactly after the checks that answered true with no error; it appends one entry
for each token generated with no error. -/
theorem loop_spec (h : Handler) (u : String) :
    ∀ (ids : List String) (subs : List StreamSubscription) (t : Trace),
      ∃ evs, loop h u ids subs t
          = (subs ++ (tokensGenerated evs).map StreamSubscription.ofToken, t ++ evs) ∧
        membershipChecks evs = ids.map (fun s => (s, u)) ∧
        tokenRequests evs = membershipsFound evs := by
  intro ids
  induction ids with
  | nil =>
    intro subs t
    exact ⟨[], by simp [loop, tokensGenerated], by simp [membershipChecks],
      by simp [tokenRequests, membershipsFound]⟩
  | cons id rest ih =>
    intro subs t
    rcases hr : h.repository.IsStreamMember t id u with ⟨b, e⟩
    have skip : ∀ (b : Bool) (e : Option String), (b = false ∨ e ≠ none) →
        loop h u rest subs (t ++ [Event.IsStreamMember id u b e])
          = loop h u (id :: rest) subs t →
        ∃ evs, loop h u (id :: rest) subs t
            = (subs ++ (tokensGenerated evs).map StreamSubscription.ofToken, t ++ evs) ∧
          membershipChecks evs = (id :: rest).map (fun s => (s, u)) ∧
          tokenRequests evs = membershipsFound evs := by
      intro b e hbe heq
      obtain ⟨evs, h1, h2, h3⟩ := ih subs (t ++ [Event.IsStreamMember id u b e])
      refine ⟨Event.IsStreamMember id u b e :: evs, ?_, ?_, ?_⟩
      · rw [← heq, h1]
        simp [tokensGenerated]
      · simp only [membershipChecks] at h2 ⊢
        simp [List.filterMap_cons, h2]
      · simp only [tokenRequests, membershipsFound] at h3 ⊢
        rcases hbe with hb | he
        · subst hb
          simp [List.filterMap_cons, h3]
        · cases e with
          | none => exact absurd rfl he
          | some err => cases b <;> simp [List.filterMap_cons, h3]
    cases e with
    | some err =>
      exact skip b (some err) (Or.inr (by simp)) (by simp [loop, hr])
    | none =>
      cases b with
      | false => exact skip false none (Or.inl rfl) (by simp [loop, hr])
      | true =>
        rcases hg : h.jwtGenerator.GenerateSubscribeToken
          (t ++ [Event.IsStreamMember id u true none]) u id with ⟨tok, exp, ge⟩
        cases ge with
        | some err =>
          obtain ⟨evs, h1, h2, h3⟩ := ih subs (t ++ [Event.IsStreamMember id u true none]
            ++ [Event.GenerateSubscribeToken u id tok exp (some err)])
          refine ⟨Event.IsStreamMember id u true none ::
            Event.GenerateSubscribeToken u id tok exp (some err) :: evs, ?_, ?_, ?_⟩
          · simp only [loop, hr, hg]
            simpa [tokensGenerated] using h1
          · simp only [membershipChecks] at h2 ⊢
            simp [List.filterMap_cons, h2]
          · simp only [tokenRequests, membershipsFound] at h3 ⊢
            simp [List.filterMap_cons, h3]
        | none =>
          obtain ⟨evs, h1, h2, h3⟩ := ih (subs ++ [⟨id, tok, exp, id⟩])
            (t ++ [Event.IsStreamMember id u true none]
              ++ [Event.GenerateSubscribeToken u id tok exp none])
          refine ⟨Event.IsStreamMember id u true none ::
            Event.GenerateSubscribeToken u id tok exp none :: evs, ?_, ?_, ?_⟩
          · simp only [loop, hr, hg]
            simpa [tokensGenerated, StreamSubscription.ofToken] using h1
          · simp only [membershipChecks] at h2 ⊢
            simp [List.filterMap_cons, h2]
          · simp only [tokenRequests, membershipsFound] at h3 ⊢
            simp [List.filterMap_cons, h3]

/-- With collaborators whose answers depend on the stream id only, the loop
keeps exactly the ids whose check answers true with no error and whose token is
generated with no error, in order. -/
theorem loop_of_fixed_answers (h : Handler) (u : String)
    (check : String → Bool × Option String) (gen : String → String × Int × Option String)
    (hc : ∀ t s, h.repository.IsStreamMember t s u = check s)
    (hg : ∀ t s, h.jwtGenerator.GenerateSubscribeToken t u s = gen s) :
    ∀ (ids : List String) (subs : List StreamSubscription) (t : Trace),
      (loop h u ids subs t).1
        = subs ++ (ids.filter (fun s => (check s).1 && (check s).2.isNone
              && (gen s).2.2.isNone)).map
            (fun s => (⟨s, (gen s).1, (gen s).2.1, s⟩ : StreamSubscription)) := by
  intro ids
  induction ids with
  | nil => intro subs t; simp [loop]
  | cons id rest ih =>
    intro subs t
    rcases hck : check id with ⟨b, e⟩
    rcases hgn : gen id with ⟨tok, exp, ge⟩
    cases e with
    | some err => simp [loop, hc, hck, ih, List.filter_cons]
    | none =>
      cases b with
      | false => simp [loop, hc, hck, ih, List.filter_cons]
      | true =>
        cases ge with
        | some err => simp [loop, hc, hg, hck, hgn, ih, List.filter_cons]
        | none => simp [loop, hc, hg, hck, hgn, ih, List.filter_cons]

end GetBatchSubscribeTokens

/-- C18: for a decoded request with a caller id, `GetBatchSubscribeTokens`
responds 200; it checks the membership of every requested id for the caller, in
request order; it requests a token exactly after the checks that answered true
with no error; its subscriptions are the tokens generated with no error, in
order, each with its stream id as channel. With collaborators whose answers
depend on the stream id only, the subscriptions are the requested ids, in
request order, whose check answers true and whose token generation succeeds. -/
theorem batch_tokens_only_for_memberships (h : Handler)
    (req : GetBatchSubscribeTokensRequest) (userUUID : String) (t : Trace) :
    (∃ evs, h.GetBatchSubscribeTokens (some req) (some userUUID) t
        = (.returned ⟨200, .GetBatchSubscribeTokensResponse
            ((tokensGenerated evs).map StreamSubscription.ofToken)⟩, t ++ evs) ∧
      membershipChecks evs = req.StreamIds.map (fun s => (s, userUUID)) ∧
      tokenRequests evs = membershipsFound evs) ∧
    (∀ (check : String → Bool × Option String) (gen : String → String × Int × Option String),
      (∀ t s, h.repository.IsStreamMember t s userUUID = check s) →
      (∀ t s, h.jwtGenerator.GenerateSubscribeToken t userUUID s = gen s) →
      (h.GetBatchSubscribeTokens (some req) (some userUUID) t).1
        = .returned ⟨200, .GetBatchSubscribeTokensResponse
            ((req.StreamIds.filter (fun s => (check s).1 && (check s).2.isNone
                && (gen s).2.2.isNone)).map
              (fun s => (⟨s, (gen s).1, (gen s).2.1, s⟩ : StreamSubscription)))⟩) := by
  constructor
  · obtain ⟨evs, h1, h2, h3⟩ := GetBatchSubscribeTokens.loop_spec h userUUID req.StreamIds [] t
    refine ⟨evs, ?_, h2, h3⟩
    simp only [Handler.GetBatchSubscribeTokens, h1]
    rfl
  · intro check gen hc hg
    have h1 := GetBatchSubscribeTokens.loop_of_fixed_answers h userUUID check gen hc hg
      req.StreamIds [] t
    simp only [Handler.GetBatchSubscribeTokens]
    rw [← List.nil_append (List.map _ _), ← h1]
    rfl

/-- Instance of C18: a caller who is a member of the first of two requested streams only. -/
theorem batch_tokens_only_for_memberships_witness :
    ((sample.handler (fun s _ => s == sample.stream)).GetBatchSubscribeTokens
        (some ⟨[sample.stream, "other"]⟩) (some sample.alice) []).1
      = .returned ⟨200, .GetBatchSubscribeTokensResponse
          [⟨sample.stream, "subscribe-token", 1800, sample.stream⟩]⟩ :=
  ((batch_tokens_only_for_memberships (sample.handler (fun s _ => s == sample.stream))
      ⟨[sample.stream, "other"]⟩ sample.alice []).2
    (fun s => (s == sample.stream, none)) (fun _ => ("subscribe-token", 1800, none))
    (fun _ _ => rfl) (fun _ _ => rfl)).trans (by decide)

/-! ### What the stream-creation workflow passes to the repository -/

namespace CreateStream

theorem upsertUsers_isUserStep (h : Handler) :
    ∀ (ids : List String) (t evs : Trace), (upsertUsers h ids t).2 = t ++ evs →
      ∀ e ∈ evs, e.isUserStep = true := by
  intro ids
  induction ids with
  | nil =>
    intro t evs h1
    have : evs = [] := by simpa [upsertUsers] using h1.symm
    subst this
    simp
  | cons userID rest ih =>
    intro t evs h1
    rcases hr : h.userClient.GetUserInfoByUUID t userID with ⟨info, e1⟩
    cases e1 with
    | some err =>
      have : evs = [Event.GetUserInfoByUUID userID info (some err)] := by
        simpa [upsertUsers, hr] using h1.symm
      subst this
      simp [Event.isUserStep]
    | none =>
      cases he : h.repository.AddNewUser (t ++ [Event.GetUserInfoByUUID userID info none])
          info with
      | some err =>
        have : evs = [Event.GetUserInfoByUUID userID info none,
            Event.AddNewUser info (some err)] := by
          simpa [upsertUsers, hr, he] using h1.symm
        subst this
        simp [Event.isUserStep]
      | none =>
        obtain ⟨evs1, h5, _⟩ := upsertUsers_spec h rest
          (t ++ [Event.GetUserInfoByUUID userID info none] ++ [Event.AddNewUser info none])
        have h6 := ih _ evs1 h5
        have : evs = Event.GetUserInfoByUUID userID info none ::
            Event.AddNewUser info none :: evs1 := by
          simp only [upsertUsers, hr, he] at h1
          rw [h5] at h1
          simpa using h1.symm
        subst this
        intro e he1
        rcases List.mem_cons.mp he1 with h7 | h7
        · subst h7; rfl
        · rcases List.mem_cons.mp h7 with h8 | h8
          · subst h8; rfl
          · exact h6 e h8

theorem upsertUsers_userSteps (h : Handler) :
    ∀ (ids : List String) (t : Trace), ∃ evs, (upsertUsers h ids t).2 = t ++ evs ∧
      (∀ e ∈ evs, e.isUserStep = true) ∧
      ((upsertUsers h ids t).1 = none → ∀ e ∈ evs, e.failed = false) ∧
      ((upsertUsers h ids t).1 ≠ none → ∃ e ∈ evs, e.failed = true) := by
  intro ids t
  obtain ⟨evs, h1, _, h3, _⟩ := upsertUsers_spec h ids t
  refine ⟨evs, h1, upsertUsers_isUserStep h ids t evs h1, h3.mp, ?_⟩
  intro hne
  by_contra hcon
  apply hne
  rw [h3]
  intro e he
  by_contra hf
  exact hcon ⟨e, he, by simpa using hf⟩

/-- The unit of work of `CreateStream`, case by case: the calls of the user loop,
then the inserts up to the first one that fails. -/
theorem unitOfWork_shape (h : Handler) (req : CreateStreamRequest) (creatorID s : String)
    (t : Trace) :
    ∃ users, (∀ e ∈ users, e.isUserStep = true) ∧
      ((∃ err, unitOfWork h req creatorID s t = (.returned (some err), s, t ++ users) ∧
          ∃ e ∈ users, e.failed = true) ∨
        (∃ sid err, unitOfWork h req creatorID s t
          = (.returned (some err), sid, t ++ (users ++
              [Event.CreateStream req.Type_ req.ChatMetadata creatorID sid (some err)]))) ∨
        (∃ sid err, unitOfWork h req creatorID s t
          = (.returned (some err), sid, t ++ (users ++
              [Event.CreateStream req.Type_ req.ChatMetadata creatorID sid none,
                Event.AddStreamMembers sid (members req creatorID) (some err)]))) ∨
        (∃ sid err, unitOfWork h req creatorID s t
          = (.returned (some err), sid, t ++ (users ++
              [Event.CreateStream req.Type_ req.ChatMetadata creatorID sid none,
                Event.AddStreamMembers sid (members req creatorID) none,
                Event.AddUserSubscriptions (subscriptions (members req creatorID) sid)
                  (some err)]))) ∨
        (∃ sid, unitOfWork h req creatorID s t
            = (.returned none, sid, t ++ (users ++
                [Event.CreateStream req.Type_ req.ChatMetadata creatorID sid none,
                  Event.AddStreamMembers sid (members req creatorID) none,
                  Event.AddUserSubscriptions (subscriptions (members req creatorID) sid)
                    none])) ∧
          ∀ e ∈ users, e.failed = false)) := by
  obtain ⟨users, h1, h2, h3, h4⟩ := upsertUsers_userSteps h (allUserIDs req creatorID) t
  rcases hu : upsertUsers h (allUserIDs req creatorID) t with ⟨ures, ut⟩
  rw [hu] at h1 h3 h4
  simp only at h1 h3 h4
  subst h1
  refine ⟨users, h2, ?_⟩
  cases ures with
  | some err =>
    exact Or.inl ⟨err, by simp [unitOfWork, hu], h4 (by simp)⟩
  | none =>
    have hok := h3 rfl
    rcases hc : h.repository.CreateStream (t ++ users) req.Type_ req.ChatMetadata creatorID
      with ⟨sid, ce⟩
    cases ce with
    | some err =>
      exact Or.inr (Or.inl ⟨sid, err, by simp [unitOfWork, hu, hc]⟩)
    | none =>
      cases hm : h.repository.AddStreamMembers
          (t ++ (users ++ [Event.CreateStream req.Type_ req.ChatMetadata creatorID sid none]))
          sid (members req creatorID) with
      | some err =>
        exact Or.inr (Or.inr (Or.inl ⟨sid, err, by simp [unitOfWork, hu, hc, hm]⟩))
      | none =>
        cases hsub : h.repository.AddUserSubscriptions
            (t ++ (users ++ [Event.CreateStream req.Type_ req.ChatMetadata creatorID sid none,
              Event.AddStreamMembers sid (members req creatorID) none]))
            (subscriptions (members req creatorID) sid) with
        | some err =>
          exact Or.inr (Or.inr (Or.inr (Or.inl
            ⟨sid, err, by simp [unitOfWork, hu, hc, hm, hsub]⟩)))
        | none =>
          exact Or.inr (Or.inr (Or.inr (Or.inr
            ⟨sid, by simp [unitOfWork, hu, hc, hm, hsub], hok⟩)))

theorem members_eq (req : CreateStreamRequest) (creatorID : String) :
    members req creatorID
      = ⟨creatorID, req.CreatorMetadata⟩ ::
        (req.Users.filter (fun u => u.Id != "" && u.Id != creatorID)).map
          (fun u => (⟨u.Id, u.Metadata.getD ""⟩ : model.StreamMember)) := by
  have key : ∀ (users : List ChatUser) (acc : List model.StreamMember),
      users.foldl
        (fun acc user =>
          if user.Id != "" && user.Id != creatorID then
            acc ++ [⟨user.Id, match user.Metadata with | some m => m | none => ""⟩]
          else acc) acc
      = acc ++ (users.filter (fun u => u.Id != "" && u.Id != creatorID)).map
          (fun u => (⟨u.Id, u.Metadata.getD ""⟩ : model.StreamMember)) := by
    intro users
    induction users with
    | nil => intro acc; simp
    | cons u us ih =>
      intro acc
      rw [List.foldl_cons, ih]
      by_cases hu : (u.Id != "" && u.Id != creatorID) = true
      · rw [if_pos hu, List.filter_cons, if_pos hu]
        cases hmd : u.Metadata <;> simp [hmd]
      · rw [if_neg hu, List.filter_cons, if_neg hu]
  unfold members
  rw [key]
  rfl

theorem subscriptions_eq (ms : List model.StreamMember) (streamID : String) :
    subscriptions ms streamID
      = ms.map (fun m => (⟨m.UserID, streamID⟩ : model.UserSubscription)) := by
  have key : ∀ (ms : List model.StreamMember) (acc : List model.UserSubscription),
      ms.foldl (fun acc member => acc ++ [⟨member.UserID, streamID⟩]) acc
      = acc ++ ms.map (fun m => (⟨m.UserID, streamID⟩ : model.UserSubscription)) := by
    intro ms
    induction ms with
    | nil => intro acc; simp
    | cons m rest ih => intro acc; rw [List.foldl_cons, ih]; simp
  unfold subscriptions
  rw [key]
  rfl

theorem createCalls_userSteps (users : List Event) (hu : ∀ e ∈ users, e.isUserStep = true) :
    createCalls users = [] := by
  induction users with
  | nil => rfl
  | cons e rest ih =>
    have h1 := hu e (List.mem_cons_self _ _)
    have h2 := ih (fun x hx => hu x (List.mem_cons_of_mem _ hx))
    cases e <;> simp [Event.isUserStep] at h1 <;> simpa [createCalls] using h2

theorem memberCalls_userSteps (users : List Event) (hu : ∀ e ∈ users, e.isUserStep = true) :
    memberCalls users = [] := by
  induction users with
  | nil => rfl
  | cons e rest ih =>
    have h1 := hu e (List.mem_cons_self _ _)
    have h2 := ih (fun x hx => hu x (List.mem_cons_of_mem _ hx))
    cases e <;> simp [Event.isUserStep] at h1 <;> simpa [memberCalls] using h2

theorem subscriptionCalls_userSteps (users : List Event)
    (hu : ∀ e ∈ users, e.isUserStep = true) : subscriptionCalls users = [] := by
  induction users with
  | nil => rfl
  | cons e rest ih =>
    have h1 := hu e (List.mem_cons_self _ _)
    have h2 := ih (fun x hx => hu x (List.mem_cons_of_mem _ hx))
    cases e <;> simp [Event.isUserStep] at h1 <;> simpa [subscriptionCalls] using h2

end CreateStream

/-- The handler `CreateStream` on a decoded, validated request with a caller id,
case by case: the response and the calls made. -/
theorem CreateStream_run_cases (h : Handler) (req : CreateStreamRequest)
    (creatorID : String) (t : Trace)
    (hv : h.validator.ValidateCreateStream req creatorID = none) :
    ∃ users, (∀ e ∈ users, e.isUserStep = true) ∧
      ((∃ msg, h.CreateStream (some req) (some creatorID) t
            = (.returned ⟨500, .Error msg⟩,
                t ++ (Event.TxBegin :: (users ++ [Event.TxRollback]))) ∧
          ∃ e ∈ users, e.failed = true) ∨
        (∃ sid err msg, h.CreateStream (some req) (some creatorID) t
          = (.returned ⟨500, .Error msg⟩, t ++ (Event.TxBegin :: (users ++
              [Event.CreateStream req.Type_ req.ChatMetadata creatorID sid (some err),
                Event.TxRollback])))) ∨
        (∃ sid err msg, h.CreateStream (some req) (some creatorID) t
          = (.returned ⟨500, .Error msg⟩, t ++ (Event.TxBegin :: (users ++
              [Event.CreateStream req.Type_ req.ChatMetadata creatorID sid none,
                Event.AddStreamMembers sid (CreateStream.members req creatorID) (some err),
                Event.TxRollback])))) ∨
        (∃ sid err msg, h.CreateStream (some req) (some creatorID) t
          = (.returned ⟨500, .Error msg⟩, t ++ (Event.TxBegin :: (users ++
              [Event.CreateStream req.Type_ req.ChatMetadata creatorID sid none,
                Event.AddStreamMembers sid (CreateStream.members req creatorID) none,
                Event.AddUserSubscriptions
                  (CreateStream.subscriptions (CreateStream.members req creatorID) sid)
                  (some err),
                Event.TxRollback])))) ∨
        (∃ sid, h.CreateStream (some req) (some creatorID) t
            = (.returned ⟨200, .CreateStreamResponse sid⟩, t ++ (Event.TxBegin :: (users ++
                [Event.CreateStream req.Type_ req.ChatMetadata creatorID sid none,
                  Event.AddStreamMembers sid (CreateStream.members req creatorID) none,
                  Event.AddUserSubscriptions
                    (CreateStream.subscriptions (CreateStream.members req creatorID) sid)
                    none,
                  Event.TxCommit]))) ∧
          ∀ e ∈ users, e.failed = false)) := by
  obtain ⟨users, hus, hcases⟩ :=
    CreateStream.unitOfWork_shape h req creatorID "" (t ++ [Event.TxBegin])
  refine ⟨users, hus, ?_⟩
  rcases hcases with ⟨err, hu, hf⟩ | ⟨sid, err, hu⟩ | ⟨sid, err, hu⟩ | ⟨sid, err, hu⟩ |
    ⟨sid, hu, hok⟩
  · refine Or.inl ⟨"failed to create stream: " ++ err, ?_, hf⟩
    simp [Handler.CreateStream, hv, tx.TxExecute, hu, writeError,
      http.StatusInternalServerError]
  · refine Or.inr (Or.inl ⟨sid, err, "failed to create stream: " ++ err, ?_⟩)
    simp [Handler.CreateStream, hv, tx.TxExecute, hu, writeError,
      http.StatusInternalServerError]
  · refine Or.inr (Or.inr (Or.inl ⟨sid, err, "failed to create stream: " ++ err, ?_⟩))
    simp [Handler.CreateStream, hv, tx.TxExecute, hu, writeError,
      http.StatusInternalServerError]
  · refine Or.inr (Or.inr (Or.inr (Or.inl ⟨sid, err, "failed to create stream: " ++ err, ?_⟩)))
    simp [Handler.CreateStream, hv, tx.TxExecute, hu, writeError,
      http.StatusInternalServerError]
  · refine Or.inr (Or.inr (Or.inr (Or.inr ⟨sid, ?_, hok⟩)))
    simp [Handler.CreateStream, hv, tx.TxExecute, hu, writeJSON, http.StatusOK]

theorem events_of_run {r : Completion Response × Trace} {resp : Completion Response}
    {t evs l : Trace} (hrun : r.2 = t ++ evs) (hr : r = (resp, t ++ l)) : evs = l := by
  subst hr
  exact (List.append_cancel_left hrun).symm

/-- C14: when the validation succeeds and no call of the run returns an error,
`CreateStream` responds with status 200 and the id that the repository's
`CreateStream` returned, and that method was called once, with the type and the
chat metadata of the request and the caller's id. -/
theorem CreateStream_returns_repository_id (h : Handler) (req : CreateStreamRequest)
    (creatorID : String) (t evs : Trace)
    (hv : h.validator.ValidateCreateStream req creatorID = none)
    (hrun : (h.CreateStream (some req) (some creatorID) t).2 = t ++ evs)
    (hok : ∀ e ∈ evs, e.failed = false) :
    ∃ sid, (h.CreateStream (some req) (some creatorID) t).1
        = .returned ⟨200, .CreateStreamResponse sid⟩ ∧
      createCalls evs = [(req.Type_, req.ChatMetadata, creatorID, sid)] := by
  obtain ⟨users, hus, hcases⟩ := CreateStream_run_cases h req creatorID t hv
  rcases hcases with ⟨msg, hh, e, he, hf⟩ | ⟨sid, err, msg, hh⟩ | ⟨sid, err, msg, hh⟩ |
    ⟨sid, err, msg, hh⟩ | ⟨sid, hh, _⟩
  · have hevs := events_of_run hrun hh
    have := hok e (by rw [hevs]; simp [he])
    rw [this] at hf
    cases hf
  · have hevs := events_of_run hrun hh
    have := hok (Event.CreateStream req.Type_ req.ChatMetadata creatorID sid (some err))
      (by rw [hevs]; simp)
    simp [Event.failed, Event.err] at this
  · have hevs := events_of_run hrun hh
    have := hok (Event.AddStreamMembers sid (CreateStream.members req creatorID) (some err))
      (by rw [hevs]; simp)
    simp [Event.failed, Event.err] at this
  · have hevs := events_of_run hrun hh
    have := hok (Event.AddUserSubscriptions
      (CreateStream.subscriptions (CreateStream.members req creatorID) sid) (some err))
      (by rw [hevs]; simp)
    simp [Event.failed, Event.err] at this
  · have hevs := events_of_run hrun hh
    refine ⟨sid, by rw [hh], ?_⟩
    rw [hevs]
    have hc := CreateStream.createCalls_userSteps users hus
    simp only [createCalls] at hc ⊢
    simp [List.filterMap_cons, List.filterMap_append, hc]

/-- Instance of C14: a private stream request with one participant, every
collaborator succeeding. -/
theorem CreateStream_returns_repository_id_witness :
    ∃ sid, ((sample.handler (fun _ _ => true)).CreateStream (some sample.onlyBob)
        (some sample.alice) []).1 = .returned ⟨200, .CreateStreamResponse sid⟩ ∧
      createCalls ((sample.handler (fun _ _ => true)).CreateStream (some sample.onlyBob)
        (some sample.alice) []).2
        = [(sample.onlyBob.Type_, sample.onlyBob.ChatMetadata, sample.alice, sid)] :=
  CreateStream_returns_repository_id (sample.handler (fun _ _ => true)) sample.onlyBob
    sample.alice [] _ (by decide) (List.nil_append _).symm (by decide)

/-- C15: the list that `CreateStream` passes to `AddStreamMembers` is the creator
with the creator metadata of the request, followed by the users of the request
whose id is not empty and differs from the creator's, in request order, each
with its metadata or the empty string when it gave none; the run of a validated
request makes no other `AddStreamMembers` call, and makes this one when the
response is 200. -/
theorem members_passed_to_AddStreamMembers (h : Handler) (req : CreateStreamRequest)
    (creatorID : String) (t evs : Trace)
    (hv : h.validator.ValidateCreateStream req creatorID = none)
    (hrun : (h.CreateStream (some req) (some creatorID) t).2 = t ++ evs) :
    (memberCalls evs = [] ∨
      memberCalls evs
        = [⟨creatorID, req.CreatorMetadata⟩ ::
            (req.Users.filter (fun u => u.Id != "" && u.Id != creatorID)).map
              (fun u => (⟨u.Id, u.Metadata.getD ""⟩ : model.StreamMember))]) ∧
    (∀ sid, (h.CreateStream (some req) (some creatorID) t).1
        = .returned ⟨200, .CreateStreamResponse sid⟩ →
      memberCalls evs
        = [⟨creatorID, req.CreatorMetadata⟩ ::
            (req.Users.filter (fun u => u.Id != "" && u.Id != creatorID)).map
              (fun u => (⟨u.Id, u.Metadata.getD ""⟩ : model.StreamMember))]) := by
  obtain ⟨users, hus, hcases⟩ := CreateStream_run_cases h req creatorID t hv
  have hm := CreateStream.memberCalls_userSteps users hus
  simp only [memberCalls] at hm
  rw [← CreateStream.members_eq]
  rcases hcases with ⟨msg, hh, _⟩ | ⟨sid, err, msg, hh⟩ | ⟨sid, err, msg, hh⟩ |
    ⟨sid, err, msg, hh⟩ | ⟨sid, hh, _⟩
  · have hevs := events_of_run hrun hh
    have h0 : memberCalls evs = [] := by
      rw [hevs]
      simp [memberCalls, List.filterMap_cons, List.filterMap_append, hm]
    refine ⟨Or.inl h0, ?_⟩
    intro sid hs
    rw [hh] at hs
    simp at hs
  · have hevs := events_of_run hrun hh
    have h0 : memberCalls evs = [] := by
      rw [hevs]
      simp [memberCalls, List.filterMap_cons, List.filterMap_append, hm]
    refine ⟨Or.inl h0, ?_⟩
    intro sid1 hs
    rw [hh] at hs
    simp at hs
  · have hevs := events_of_run hrun hh
    have h1 : memberCalls evs = [CreateStream.members req creatorID] := by
      rw [hevs]
      simp [memberCalls, List.filterMap_cons, List.filterMap_append, hm]
    exact ⟨Or.inr h1, fun _ _ => h1⟩
  · have hevs := events_of_run hrun hh
    have h1 : memberCalls evs = [CreateStream.members req creatorID] := by
      rw [hevs]
      simp [memberCalls, List.filterMap_cons, List.filterMap_append, hm]
    exact ⟨Or.inr h1, fun _ _ => h1⟩
  · have hevs := events_of_run hrun hh
    have h1 : memberCalls evs = [CreateStream.members req creatorID] := by
      rw [hevs]
      simp [memberCalls, List.filterMap_cons, List.filterMap_append, hm]
    exact ⟨Or.inr h1, fun _ _ => h1⟩

/-- Instance of C15: a private stream request with one participant, every
collaborator succeeding. -/
theorem members_passed_to_AddStreamMembers_witness :
    memberCalls ((sample.handler (fun _ _ => true)).CreateStream (some sample.onlyBob)
        (some sample.alice) []).2
      = [[⟨sample.alice, "creator"⟩, ⟨sample.bob, "guest"⟩]] :=
  ((members_passed_to_AddStreamMembers (sample.handler (fun _ _ => true)) sample.onlyBob
      sample.alice [] _ (by decide) (List.nil_append _).symm).2 "stream-1" (by decide)).trans
    (by decide)

/-- C16: every list that the run of a validated request passes to
`AddUserSubscriptions` comes after the stream insert returned an id and the
membership insert for that id succeeded, and it has one entry for each
membership row passed to `AddStreamMembers`, in the same order, with the same
user id and with that stream id as channel. -/
theorem subscriptions_mirror_members (h : Handler) (req : CreateStreamRequest)
    (creatorID : String) (t evs : Trace)
    (hv : h.validator.ValidateCreateStream req creatorID = none)
    (hrun : (h.CreateStream (some req) (some creatorID) t).2 = t ++ evs) :
    ∀ subs ∈ subscriptionCalls evs, ∃ sid ms,
      Event.CreateStream req.Type_ req.ChatMetadata creatorID sid none ∈ evs ∧
      Event.AddStreamMembers sid ms none ∈ evs ∧
      memberCalls evs = [ms] ∧
      subscriptionCalls evs = [subs] ∧
      subs = ms.map (fun m => (⟨m.UserID, sid⟩ : model.UserSubscription)) ∧
      subs.length = ms.length := by
  obtain ⟨users, hus, hcases⟩ := CreateStream_run_cases h req creatorID t hv
  have hm := CreateStream.memberCalls_userSteps users hus
  have hs := CreateStream.subscriptionCalls_userSteps users hus
  simp only [memberCalls] at hm
  simp only [subscriptionCalls] at hs
  have none_case : ∀ l : Trace, evs = Event.TxBegin :: (users ++ l) →
      subscriptionCalls l = [] →
      ∀ subs ∈ subscriptionCalls evs, ∃ sid ms,
        Event.CreateStream req.Type_ req.ChatMetadata creatorID sid none ∈ evs ∧
        Event.AddStreamMembers sid ms none ∈ evs ∧
        memberCalls evs = [ms] ∧
        subscriptionCalls evs = [subs] ∧
        subs = ms.map (fun m => (⟨m.UserID, sid⟩ : model.UserSubscription)) ∧
        subs.length = ms.length := by
    intro l hl hnone subs hsub
    rw [hl] at hsub
    simp only [subscriptionCalls] at hnone
    simp [subscriptionCalls, List.filterMap_cons, List.filterMap_append, hs, hnone] at hsub
  have some_case : ∀ (sid : String) (e : Option String) (fin : Event),
      (fin = Event.TxCommit ∨ fin = Event.TxRollback) →
      evs = Event.TxBegin :: (users ++
        [Event.CreateStream req.Type_ req.ChatMetadata creatorID sid none,
          Event.AddStreamMembers sid (CreateStream.members req creatorID) none,
          Event.AddUserSubscriptions
            (CreateStream.subscriptions (CreateStream.members req creatorID) sid) e, fin]) →
      ∀ subs ∈ subscriptionCalls evs, ∃ sid ms,
        Event.CreateStream req.Type_ req.ChatMetadata creatorID sid none ∈ evs ∧
        Event.AddStreamMembers sid ms none ∈ evs ∧
        memberCalls evs = [ms] ∧
        subscriptionCalls evs = [subs] ∧
        subs = ms.map (fun m => (⟨m.UserID, sid⟩ : model.UserSubscription)) ∧
        subs.length = ms.length := by
    intro sid e fin hfin hl subs hsub
    have hsc : subscriptionCalls evs
        = [CreateStream.subscriptions (CreateStream.members req creatorID) sid] := by
      rw [hl]
      rcases hfin with hf | hf <;> subst hf <;>
        simp [subscriptionCalls, List.filterMap_cons, List.filterMap_append, hs]
    have hmc : memberCalls evs = [CreateStream.members req creatorID] := by
      rw [hl]
      rcases hfin with hf | hf <;> subst hf <;>
        simp [memberCalls, List.filterMap_cons, List.filterMap_append, hm]
    rw [hsc] at hsub
    have hsubs : subs = CreateStream.subscriptions (CreateStream.members req creatorID) sid := by
      simpa using hsub
    refine ⟨sid, CreateStream.members req creatorID, ?_, ?_, hmc, ?_, ?_, ?_⟩
    · rw [hl]; simp
    · rw [hl]; simp
    · rw [hsc, hsubs]
    · rw [hsubs, CreateStream.subscriptions_eq]
    · rw [hsubs, CreateStream.subscriptions_eq, List.length_map]
  rcases hcases with ⟨msg, hh, _⟩ | ⟨sid, err, msg, hh⟩ | ⟨sid, err, msg, hh⟩ |
    ⟨sid, err, msg, hh⟩ | ⟨sid, hh, _⟩
  · exact none_case _ (events_of_run hrun hh) (by simp [subscriptionCalls])
  · exact none_case _ (events_of_run hrun hh) (by simp [subscriptionCalls])
  · exact none_case _ (events_of_run hrun hh) (by simp [subscriptionCalls])
  · exact some_case sid (some err) Event.TxRollback (Or.inr rfl) (events_of_run hrun hh)
  · exact some_case sid none Event.TxCommit (Or.inl rfl) (events_of_run hrun hh)

/-- Instance of C16: a private stream request with one participant, every
collaborator succeeding. -/
theorem subscriptions_mirror_members_witness :
    ∃ sid ms,
      Event.CreateStream sample.onlyBob.Type_ sample.onlyBob.ChatMetadata sample.alice sid none
        ∈ ((sample.handler (fun _ _ => true)).CreateStream
          (some sample.onlyBob) (some sample.alice) []).2 ∧
      Event.AddStreamMembers sid ms none ∈ ((sample.handler (fun _ _ => true)).CreateStream
          (some sample.onlyBob) (some sample.alice) []).2 ∧
      memberCalls ((sample.handler (fun _ _ => true)).CreateStream
          (some sample.onlyBob) (some sample.alice) []).2 = [ms] ∧
      subscriptionCalls ((sample.handler (fun _ _ => true)).CreateStream
          (some sample.onlyBob) (some sample.alice) []).2
        = [[⟨sample.alice, "stream-1"⟩, ⟨sample.bob, "stream-1"⟩]] ∧
      [⟨sample.alice, "stream-1"⟩, ⟨sample.bob, "stream-1"⟩]
        = ms.map (fun m => (⟨m.UserID, sid⟩ : model.UserSubscription)) ∧
      [(⟨sample.alice, "stream-1"⟩ : model.UserSubscription), ⟨sample.bob, "stream-1"⟩].length
        = ms.length :=
  subscriptions_mirror_members (sample.handler (fun _ _ => true)) sample.onlyBob
    sample.alice [] _ (by decide) (List.nil_append _).symm
    [⟨sample.alice, "stream-1"⟩, ⟨sample.bob, "stream-1"⟩] (by decide)

/-! ### The transaction scope -/

namespace tx

theorem scan_append (t l : Trace) : scan (t ++ l) = l.foldl step (scan t) := by
  simp [scan, List.foldl_append]

theorem step_held (done held : List Event) (e : Event) (he : isMark e = false) :
    step (done, some held) e = (done, some (if isWrite e then held ++ [e] else held)) := by
  cases e <;> simp [isMark] at he <;> simp [step]

theorem step_free (done : List Event) (e : Event) (he : isMark e = false)
    (hw : isWrite e = false) : step (done, none) e = (done, none) := by
  cases e <;> simp [isMark] at he <;> simp [step, hw]

theorem foldl_held (l : List Event) (hl : ∀ e ∈ l, isMark e = false) :
    ∀ (done held : List Event),
      l.foldl step (done, some held) = (done, some (held ++ l.filter isWrite)) := by
  induction l with
  | nil => intro done held; simp
  | cons e rest ih =>
    intro done held
    rw [List.foldl_cons, step_held done held e (hl e (List.mem_cons_self _ _)),
      ih (fun x hx => hl x (List.mem_cons_of_mem _ hx))]
    by_cases hw : isWrite e = true
    · simp [hw, List.filter_cons]
    · simp [hw, List.filter_cons]

/-- A transaction that commits adds its writes to the persistent ones; a
transaction that rolls back leaves the persistent writes as they were. -/
theorem persistent_transaction (t l : Trace) (hclosed : (scan t).2 = none)
    (hl : ∀ e ∈ l, isMark e = false) :
    scan (t ++ (Event.TxBegin :: (l ++ [Event.TxCommit])))
        = (persistent t ++ l.filter isWrite, none) ∧
      scan (t ++ (Event.TxBegin :: (l ++ [Event.TxRollback]))) = (persistent t, none) := by
  rcases hs : scan t with ⟨done, held⟩
  rw [hs] at hclosed
  simp only at hclosed
  subst hclosed
  constructor
  · rw [scan_append, hs, List.foldl_cons, List.foldl_append]
    have h1 : step (done, none) Event.TxBegin = (done, some []) := rfl
    rw [h1, foldl_held l hl]
    simp [step, persistent, hs]
  · rw [scan_append, hs, List.foldl_cons, List.foldl_append]
    have h1 : step (done, none) Event.TxBegin = (done, some []) := rfl
    rw [h1, foldl_held l hl]
    simp [step, persistent, hs]

theorem not_mark_of_userStep (users : List Event) (hu : ∀ e ∈ users, e.isUserStep = true) :
    ∀ e ∈ users, isMark e = false := by
  intro e he
  have h1 := hu e he
  cases e <;> simp [Event.isUserStep] at h1 <;> rfl

end tx

/-- The run of `CreateStream` on a validated request is one transaction: its
calls, none of them a transaction mark, between the beginning and either a
rollback, with status 500, or a commit, with status 200. -/
theorem CreateStream_scope (h : Handler) (req : CreateStreamRequest) (creatorID : String)
    (t : Trace) (hv : h.validator.ValidateCreateStream req creatorID = none) :
    ∃ l, (∀ e ∈ l, tx.isMark e = false) ∧
      ((∃ msg, h.CreateStream (some req) (some creatorID) t
          = (.returned ⟨500, .Error msg⟩,
              t ++ (Event.TxBegin :: (l ++ [Event.TxRollback])))) ∨
        (∃ sid, h.CreateStream (some req) (some creatorID) t
          = (.returned ⟨200, .CreateStreamResponse sid⟩,
              t ++ (Event.TxBegin :: (l ++ [Event.TxCommit]))))) := by
  obtain ⟨users, hus, hcases⟩ := CreateStream_run_cases h req creatorID t hv
  have hmark := tx.not_mark_of_userStep users hus
  have marks : ∀ tail : List Event, (∀ e ∈ tail, tx.isMark e = false) →
      ∀ e ∈ users ++ tail, tx.isMark e = false := by
    intro tail ht e he
    rcases List.mem_append.mp he with h1 | h1
    · exact hmark e h1
    · exact ht e h1
  rcases hcases with ⟨msg, hh, _⟩ | ⟨sid, err, msg, hh⟩ | ⟨sid, err, msg, hh⟩ |
    ⟨sid, err, msg, hh⟩ | ⟨sid, hh, _⟩
  · exact ⟨users, hmark, Or.inl ⟨msg, hh⟩⟩
  · refine ⟨users ++ [Event.CreateStream req.Type_ req.ChatMetadata creatorID sid (some err)],
      marks _ (by simp [tx.isMark]), Or.inl ⟨msg, ?_⟩⟩
    rw [hh]; simp
  · refine ⟨users ++ [Event.CreateStream req.Type_ req.ChatMetadata creatorID sid none,
        Event.AddStreamMembers sid (CreateStream.members req creatorID) (some err)],
      marks _ (by simp [tx.isMark]), Or.inl ⟨msg, ?_⟩⟩
    rw [hh]; simp
  · refine ⟨users ++ [Event.CreateStream req.Type_ req.ChatMetadata creatorID sid none,
        Event.AddStreamMembers sid (CreateStream.members req creatorID) none,
        Event.AddUserSubscriptions
          (CreateStream.subscriptions (CreateStream.members req creatorID) sid) (some err)],
      marks _ (by simp [tx.isMark]), Or.inl ⟨msg, ?_⟩⟩
    rw [hh]; simp
  · refine ⟨users ++ [Event.CreateStream req.Type_ req.ChatMetadata creatorID sid none,
        Event.AddStreamMembers sid (CreateStream.members req creatorID) none,
        Event.AddUserSubscriptions
          (CreateStream.subscriptions (CreateStream.members req creatorID) sid) none],
      marks _ (by simp [tx.isMark]), Or.inr ⟨sid, ?_⟩⟩
    rw [hh]; simp

/-- The run of `SendMessage` on a validated request is one transaction: its
calls, none of them a transaction mark, between the beginning and either a
rollback, ending in status 500 or a panic, or a commit followed by the one
`Publish` call, with status 200. -/
theorem SendMessage_scope (h : Handler) (rt : Runtime) (req : SendMessageRequest)
    (senderID streamId : String) (t : Trace)
    (hv : h.validator.ValidateSendMessage req = none) :
    ∃ l, (∀ e ∈ l, tx.isMark e = false) ∧
      ((∃ c, (∀ r, c = .returned r → r.status = 500) ∧
          h.SendMessage rt (some req) (some senderID) streamId t
            = (c, t ++ (Event.TxBegin :: (l ++ [Event.TxRollback])))) ∨
        (∃ body channel m perr, h.SendMessage rt (some req) (some senderID) streamId t
          = (.returned ⟨200, body⟩,
              t ++ (Event.TxBegin :: (l ++ [Event.TxCommit]))
                ++ [Event.Publish channel m perr]))) := by
  rw [SendMessage_after_validation h rt req senderID streamId t hv]
  unfold tx.TxExecute
  rcases SendMessage.unitOfWork_cases h rt req streamId senderID model.Message.zero
      (t ++ [Event.TxBegin])
    with ⟨b, err, msg, hu⟩ | ⟨msg, hu⟩ | ⟨msg, m, hu⟩ | ⟨sid, m, err, msg, _, _, hu⟩ |
      ⟨sid, m, _, _, hu⟩
  · refine ⟨[Event.IsStreamMember streamId senderID b (some err)], by simp [tx.isMark],
      Or.inl ⟨.returned ⟨500, .Error ("failed to send message: " ++ msg)⟩, ?_, ?_⟩⟩
    · intro r hr; cases hr; rfl
    · rw [hu]; simp
  · refine ⟨[Event.IsStreamMember streamId senderID false none], by simp [tx.isMark],
      Or.inl ⟨.returned ⟨500, .Error ("failed to send message: " ++ msg)⟩, ?_, ?_⟩⟩
    · intro r hr; cases hr; rfl
    · rw [hu]; simp
  · refine ⟨[Event.IsStreamMember streamId senderID true none], by simp [tx.isMark],
      Or.inl ⟨.panicked msg, ?_, ?_⟩⟩
    · intro r hr; cases hr
    · rw [hu]; simp
  · refine ⟨[Event.IsStreamMember streamId senderID true none,
        Event.SaveMessage m (some err)], by simp [tx.isMark],
      Or.inl ⟨.returned ⟨500, .Error ("failed to send message: " ++ msg)⟩, ?_, ?_⟩⟩
    · intro r hr; cases hr; rfl
    · rw [hu]; simp
  · refine ⟨[Event.IsStreamMember streamId senderID true none, Event.SaveMessage m none],
      by simp [tx.isMark],
      Or.inr ⟨.SendMessageResponse m.ID.String (rt.Format m.SentAt), m.StreamID.String, m,
        h.centrifugeClient.Publish
          (t ++ [Event.TxBegin] ++ [Event.IsStreamMember streamId senderID true none,
            Event.SaveMessage m none] ++ [Event.TxCommit]) m.StreamID.String m, ?_⟩⟩
    rw [hu]
    simp

theorem filter_isWrite_scope (l : List Event) (fin : Event) (hfin : tx.isWrite fin = false) :
    (Event.TxBegin :: (l ++ [fin])).filter tx.isWrite = l.filter tx.isWrite := by
  have h0 : tx.isWrite Event.TxBegin = false := rfl
  simp [List.filter_cons, List.filter_append, h0, hfin]

/-- C13: the transaction scope runs the unit of work once, from the trace
extended by the beginning of the transaction, and appends one end mark to what
the unit of work left: a commit exactly when the unit of work returned no error,
a rollback when it returned an error or panicked. For `CreateStream` and
`SendMessage` started outside any transaction: when the response is not a 200
the persistent writes after the request are those before it, and when it is a
200 they are those before it followed by the writes of the request. -/
theorem transaction_scope_finalizes_once (h : Handler) (rt : Runtime)
    (cbody : Option CreateStreamRequest) (sbody : Option SendMessageRequest)
    (ctxUUID : Option String) (streamId : String) (t : Trace)
    (hclosed : (tx.scan t).2 = none) :
    (∀ (σ : Type) (cb : σ → Trace → Completion (Option String) × σ × Trace) (s : σ)
        (t0 : Trace),
      tx.TxExecute cb s t0
        = ((cb s (t0 ++ [Event.TxBegin])).1, (cb s (t0 ++ [Event.TxBegin])).2.1,
            (cb s (t0 ++ [Event.TxBegin])).2.2 ++
              [if (cb s (t0 ++ [Event.TxBegin])).1 = .returned none then Event.TxCommit
                else Event.TxRollback])) ∧
    ((∀ r, (h.CreateStream cbody ctxUUID t).1 = .returned r → r.status ≠ 200) →
      tx.persistent (h.CreateStream cbody ctxUUID t).2 = tx.persistent t) ∧
    ((∀ r, (h.SendMessage rt sbody ctxUUID streamId t).1 = .returned r → r.status ≠ 200) →
      tx.persistent (h.SendMessage rt sbody ctxUUID streamId t).2 = tx.persistent t) ∧
    ((∃ r, (h.CreateStream cbody ctxUUID t).1 = .returned r ∧ r.status = 200) →
      tx.persistent (h.CreateStream cbody ctxUUID t).2
        = tx.persistent t ++
          ((h.CreateStream cbody ctxUUID t).2.drop t.length).filter tx.isWrite) ∧
    ((∃ r, (h.SendMessage rt sbody ctxUUID streamId t).1 = .returned r ∧ r.status = 200) →
      tx.persistent (h.SendMessage rt sbody ctxUUID streamId t).2
        = tx.persistent t ++
          ((h.SendMessage rt sbody ctxUUID streamId t).2.drop t.length).filter tx.isWrite) := by
  have create : ∀ req creatorID, h.validator.ValidateCreateStream req creatorID = none →
      ((∀ r, (h.CreateStream (some req) (some creatorID) t).1 = .returned r → r.status ≠ 200) →
        tx.persistent (h.CreateStream (some req) (some creatorID) t).2 = tx.persistent t) ∧
      ((∃ r, (h.CreateStream (some req) (some creatorID) t).1 = .returned r ∧ r.status = 200) →
        tx.persistent (h.CreateStream (some req) (some creatorID) t).2
          = tx.persistent t ++
            ((h.CreateStream (some req) (some creatorID) t).2.drop t.length).filter
              tx.isWrite) := by
    intro req creatorID hv
    obtain ⟨l, hl, hcase⟩ := CreateStream_scope h req creatorID t hv
    obtain ⟨hcommit, hroll⟩ := tx.persistent_transaction t l hclosed hl
    rcases hcase with ⟨msg, hh⟩ | ⟨sid, hh⟩
    · rw [hh]
      refine ⟨fun _ => ?_, ?_⟩
      · simp only [tx.persistent, hroll]
      · rintro ⟨r, hr, hs⟩
        simp only [Completion.returned.injEq] at hr
        subst hr
        simp at hs
    · rw [hh]
      refine ⟨fun hne => ?_, fun _ => ?_⟩
      · exact absurd rfl (hne _ rfl)
      · simp only [List.drop_left, filter_isWrite_scope l Event.TxCommit rfl]
        simp only [tx.persistent, hcommit]
  have send : ∀ req senderID, h.validator.ValidateSendMessage req = none →
      ((∀ r, (h.SendMessage rt (some req) (some senderID) streamId t).1 = .returned r →
          r.status ≠ 200) →
        tx.persistent (h.SendMessage rt (some req) (some senderID) streamId t).2
          = tx.persistent t) ∧
      ((∃ r, (h.SendMessage rt (some req) (some senderID) streamId t).1 = .returned r ∧
          r.status = 200) →
        tx.persistent (h.SendMessage rt (some req) (some senderID) streamId t).2
          = tx.persistent t ++
            ((h.SendMessage rt (some req) (some senderID) streamId t).2.drop t.length).filter
              tx.isWrite) := by
    intro req senderID hv
    obtain ⟨l, hl, hcase⟩ := SendMessage_scope h rt req senderID streamId t hv
    obtain ⟨hcommit, hroll⟩ := tx.persistent_transaction t l hclosed hl
    rcases hcase with ⟨c, hc, hh⟩ | ⟨body, channel, m, perr, hh⟩
    · rw [hh]
      refine ⟨fun _ => ?_, ?_⟩
      · simp only [tx.persistent, hroll]
      · rintro ⟨r, hr, hs⟩
        have := hc r hr
        omega
    · rw [hh]
      refine ⟨fun hne => ?_, fun _ => ?_⟩
      · exact absurd rfl (hne _ rfl)
      · have hscan : tx.scan (t ++ (Event.TxBegin :: (l ++ [Event.TxCommit]))
            ++ [Event.Publish channel m perr])
            = (tx.persistent t ++ l.filter tx.isWrite, none) := by
          rw [tx.scan_append, hcommit]
          rfl
        have hdrop : (t ++ (Event.TxBegin :: (l ++ [Event.TxCommit]))
            ++ [Event.Publish channel m perr]).drop t.length
            = (Event.TxBegin :: (l ++ [Event.TxCommit])) ++ [Event.Publish channel m perr] := by
          rw [List.append_assoc, List.drop_left]
        simp only [hdrop, List.filter_append, filter_isWrite_scope l Event.TxCommit rfl]
        simp only [tx.persistent, hscan]
        simp [List.filter_cons, tx.isWrite]
  have untouched : ∀ (r : Completion Response × Trace), r.2 = t →
      tx.persistent r.2 = tx.persistent t ∧
        tx.persistent r.2 = tx.persistent t ++ (r.2.drop t.length).filter tx.isWrite := by
    intro r hr
    rw [hr]
    simp
  refine ⟨?_, ?_, ?_, ?_, ?_⟩
  · intro σ cb s t0
    rcases hcb : cb s (t0 ++ [Event.TxBegin]) with ⟨c, s1, t1⟩
    cases c with
    | panicked msg => simp [tx.TxExecute, hcb]
    | returned r => cases r <;> simp [tx.TxExecute, hcb]
  · intro hne
    cases cbody with
    | none => exact (untouched _ rfl).1
    | some req =>
      cases ctxUUID with
      | none => exact (untouched _ rfl).1
      | some creatorID =>
        cases hv : h.validator.ValidateCreateStream req creatorID with
        | some err => exact (untouched _ (by simp [Handler.CreateStream, hv])).1
        | none => exact (create req creatorID hv).1 hne
  · intro hne
    cases sbody with
    | none => exact (untouched _ rfl).1
    | some req =>
      cases ctxUUID with
      | none => exact (untouched _ rfl).1
      | some senderID =>
        cases hv : h.validator.ValidateSendMessage req with
        | some err => exact (untouched _ (by simp [Handler.SendMessage, hv])).1
        | none => exact (send req senderID hv).1 hne
  · intro hex
    cases cbody with
    | none => exact (untouched _ rfl).2
    | some req =>
      cases ctxUUID with
      | none => exact (untouched _ rfl).2
      | some creatorID =>
        cases hv : h.validator.ValidateCreateStream req creatorID with
        | some err => exact (untouched _ (by simp [Handler.CreateStream, hv])).2
        | none => exact (create req creatorID hv).2 hex
  · intro hex
    cases sbody with
    | none => exact (untouched _ rfl).2
    | some req =>
      cases ctxUUID with
      | none => exact (untouched _ rfl).2
      | some senderID =>
        cases hv : h.validator.ValidateSendMessage req with
        | some err => exact (untouched _ (by simp [Handler.SendMessage, hv])).2
        | none => exact (send req senderID hv).2 hex

/-- Instance of C13: a valid private request while the identity service is
unreachable, and a valid message from a caller who is not a member, both from
the empty trace. -/
theorem transaction_scope_finalizes_once_witness :
    (tx.scan []).2 = none ∧
    tx.persistent (({ sample.handler (fun _ _ => false) with
        userClient := sample.offlineUserClient } : Handler).CreateStream
        (some sample.onlyBob) (some sample.alice) []).2 = tx.persistent [] ∧
    tx.persistent (({ sample.handler (fun _ _ => false) with
        userClient := sample.offlineUserClient } : Handler).SendMessage sample.runtime
        (some sample.hello) (some sample.alice) sample.stream []).2 = tx.persistent [] :=
  ⟨rfl,
    (transaction_scope_finalizes_once
      { sample.handler (fun _ _ => false) with userClient := sample.offlineUserClient }
      sample.runtime (some sample.onlyBob) (some sample.hello) (some sample.alice)
      sample.stream [] rfl).2.1
      (by
        intro r hr
        have h1 : (({ sample.handler (fun _ _ => false) with
            userClient := sample.offlineUserClient } : Handler).CreateStream
            (some sample.onlyBob) (some sample.alice) []).1
            = .returned ⟨500, .Error ("failed to create stream: failed to get user info for "
                ++ sample.alice ++ ": unavailable")⟩ := by decide
        rw [h1] at hr
        cases hr
        decide),
    (transaction_scope_finalizes_once
      { sample.handler (fun _ _ => false) with userClient := sample.offlineUserClient }
      sample.runtime (some sample.onlyBob) (some sample.hello) (some sample.alice)
      sample.stream [] rfl).2.2.1
      (by
        intro r hr
        have h1 : (({ sample.handler (fun _ _ => false) with
            userClient := sample.offlineUserClient } : Handler).SendMessage sample.runtime
            (some sample.hello) (some sample.alice) sample.stream []).1
            = .returned ⟨500,
                .Error "failed to send message: user is not a member of this stream"⟩ := by
          decide
        rw [h1] at hr
        cases hr
        decide)⟩

/-! ### Requests without a caller id, and malformed ids in the path -/

/-- C24: each of the eight handlers, given a request whose body decodes (where
it has one) and a context without caller id, responds with status 500 and leaves
the trace as it was; the result is the same for every handler value, so it
depends on no validator, repository, token generator, transaction or broker. -/
theorem missing_caller_id_gives_500 (h : Handler) (rt : Runtime)
    (creq : CreateStreamRequest) (sreq : SendMessageRequest)
    (breq : GetBatchSubscribeTokensRequest) (params : GetStreamRecentMessagesParams)
    (streamId : String) (t : Trace) :
    h.CreateStream (some creq) none t
      = (.returned ⟨500, .Error "failed to get creator ID"⟩, t) ∧
    h.SendMessage rt (some sreq) none streamId t
      = (.returned ⟨500, .Error "failed to get sender ID"⟩, t) ∧
    h.GetPrivateStreams rt none t
      = (.returned ⟨500, .Error "failed to get requester id"⟩, t) ∧
    h.GetStreamRecentMessages rt none streamId params t
      = (.returned ⟨500, .Error "failed to find uuid"⟩, t) ∧
    h.GetConnectAccessToken none t
      = (.returned ⟨500, .Error "failed to get user UUID"⟩, t) ∧
    h.GetStreamSubscribeToken none streamId t
      = (.returned ⟨500, .Error "failed to get user UUID"⟩, t) ∧
    h.GetUserActiveStreams none t
      = (.returned ⟨500, .Error "failed to get user UUID"⟩, t) ∧
    h.GetBatchSubscribeTokens (some breq) none t
      = (.returned ⟨500, .Error "failed to get user UUID"⟩, t) :=
  ⟨rfl, rfl, rfl, rfl, rfl, rfl, rfl, rfl⟩

/-- C25, on a valid message of a caller the membership check reports as a
member, the stream id of the path written with a hyphen after every four
digits: the handler panics in `uuid.MustParse` while it builds the message; the
same happens for a caller id that is not a UUID. -/
theorem malformed_path_id_panics :
    (sample.handler (fun _ _ => true)).SendMessage sample.runtime (some sample.hello)
        (some sample.alice) sample.streamGrouped []
      = (.panicked "uuid: Parse(a0ee-bc99-9c0b-4ef8-bb6d-6bb9-bd38-0a11)",
          [Event.TxBegin, Event.IsStreamMember sample.streamGrouped sample.alice true none,
            Event.TxRollback]) ∧
    (sample.handler (fun _ _ => true)).SendMessage sample.runtime (some sample.hello)
        (some "alice") sample.stream []
      = (.panicked "uuid: Parse(alice)",
          [Event.TxBegin, Event.IsStreamMember sample.stream "alice" true none,
            Event.TxRollback]) := by
  decide

/-! ### Repository: message pages and subscriptions -/

/-- C21, on a stream with two messages sent at seconds 1 and 2: the first page
of size 1 holds the message "second", and the page of size 1 whose offset is the
sent time of that message holds "second" again, because the query keeps the rows
with `sent_at <= offset`. -/
theorem next_page_repeats_last_message :
    (postgres.Repository.GetStreamRecentMessages sample.input sample.twoMessages
        sample.stream "" 1).1.map (fun ms => ms.map (fun m => (m.Content, m.SentAt)))
      = some [("second", ⟨2000000000⟩)] ∧
    sample.input.timestamp "1970-01-01T00:00:02Z" = some ⟨2000000000⟩ ∧
    (postgres.Repository.GetStreamRecentMessages sample.input sample.twoMessages
        sample.stream "1970-01-01T00:00:02Z" 1).1.map
          (fun ms => ms.map (fun m => (m.Content, m.SentAt)))
      = some [("second", ⟨2000000000⟩)] := by
  decide

namespace postgres.Repository

theorem mem_insertSubscription (rows : List UserSubscriptionRow) (sub : model.UserSubscription) :
    (⟨sub.UserID, sub.Channel⟩ : UserSubscriptionRow) ∈ insertSubscription rows sub := by
  unfold insertSubscription
  split
  · assumption
  · simp

theorem mem_insertSubscription_of_mem (rows : List UserSubscriptionRow)
    (sub : model.UserSubscription) (r : UserSubscriptionRow) (hr : r ∈ rows) :
    r ∈ insertSubscription rows sub := by
  unfold insertSubscription
  split
  · exact hr
  · exact List.mem_append_left _ hr

theorem nodup_insertSubscription (rows : List UserSubscriptionRow)
    (sub : model.UserSubscription) (hn : rows.Nodup) : (insertSubscription rows sub).Nodup := by
  unfold insertSubscription
  split
  · exact hn
  · rename_i hmem
    exact List.Nodup.append hn (List.nodup_singleton _) (by simpa using hmem)

theorem insertSubscription_of_mem (rows : List UserSubscriptionRow)
    (sub : model.UserSubscription)
    (hmem : (⟨sub.UserID, sub.Channel⟩ : UserSubscriptionRow) ∈ rows) :
    insertSubscription rows sub = rows := by
  unfold insertSubscription
  rw [if_pos hmem]

theorem foldl_insert_keeps (subs : List model.UserSubscription) :
    ∀ (rows : List UserSubscriptionRow) (r : UserSubscriptionRow), r ∈ rows →
      r ∈ subs.foldl insertSubscription rows := by
  induction subs with
  | nil => intro rows r hr; exact hr
  | cons s rest ih =>
    intro rows r hr
    exact ih _ r (mem_insertSubscription_of_mem rows s r hr)

theorem foldl_insert_mem (subs : List model.UserSubscription) :
    ∀ (rows : List UserSubscriptionRow) (sub : model.UserSubscription), sub ∈ subs →
      (⟨sub.UserID, sub.Channel⟩ : UserSubscriptionRow) ∈ subs.foldl insertSubscription rows := by
  induction subs with
  | nil => intro rows sub hs; cases hs
  | cons s rest ih =>
    intro rows sub hs
    rcases List.mem_cons.mp hs with h1 | h1
    · subst h1
      exact foldl_insert_keeps rest _ _ (mem_insertSubscription rows sub)
    · exact ih _ sub h1

theorem foldl_insert_nodup (subs : List model.UserSubscription) :
    ∀ (rows : List UserSubscriptionRow), rows.Nodup →
      (subs.foldl insertSubscription rows).Nodup := by
  induction subs with
  | nil => intro rows hn; exact hn
  | cons s rest ih =>
    intro rows hn
    exact ih _ (nodup_insertSubscription rows s hn)

theorem foldl_insert_fixed (subs : List model.UserSubscription) :
    ∀ (rows : List UserSubscriptionRow),
      (∀ sub ∈ subs, (⟨sub.UserID, sub.Channel⟩ : UserSubscriptionRow) ∈ rows) →
      subs.foldl insertSubscription rows = rows := by
  induction subs with
  | nil => intro rows _; rfl
  | cons s rest ih =>
    intro rows hall
    rw [List.foldl_cons, insertSubscription_of_mem rows s (hall s (List.mem_cons_self _ _))]
    exact ih rows (fun sub hs => hall sub (List.mem_cons_of_mem _ hs))

end postgres.Repository

/-- C22: on a table `user_subscriptions` whose rows are distinct (the unique
index the conflict clause names), `AddUserSubscriptions` with a list holding a
subscription returns no error, a second call with the same list returns no error
and leaves the table as the first call left it, and the table then holds exactly
one row for the pair of that subscription. -/
theorem subscription_insert_is_idempotent (rows : List postgres.UserSubscriptionRow)
    (subs : List model.UserSubscription) (sub : model.UserSubscription)
    (hu : rows.Nodup) (hs : sub ∈ subs) :
    (postgres.Repository.AddUserSubscriptions rows subs).1 = none ∧
    postgres.Repository.AddUserSubscriptions
        (postgres.Repository.AddUserSubscriptions rows subs).2 subs
      = (none, (postgres.Repository.AddUserSubscriptions rows subs).2) ∧
    (postgres.Repository.AddUserSubscriptions rows subs).2.count ⟨sub.UserID, sub.Channel⟩
      = 1 := by
  have hne : subs.isEmpty = false := by
    cases subs with
    | nil => cases hs
    | cons a l => rfl
  have h1 : postgres.Repository.AddUserSubscriptions rows subs
      = (none, subs.foldl postgres.Repository.insertSubscription rows) := by
    simp [postgres.Repository.AddUserSubscriptions, hne]
  rw [h1]
  refine ⟨rfl, ?_, ?_⟩
  · simp only [postgres.Repository.AddUserSubscriptions, hne]
    rw [postgres.Repository.foldl_insert_fixed subs _
      (fun s hs1 => postgres.Repository.foldl_insert_mem subs rows s hs1)]
    rfl
  · exact List.count_eq_one_of_mem (postgres.Repository.foldl_insert_nodup subs rows hu)
      (postgres.Repository.foldl_insert_mem subs rows sub hs)

/-- Instance of C22: alice's subscription to a channel, inserted twice into an
empty table. -/
theorem subscription_insert_is_idempotent_witness :
    (postgres.Repository.AddUserSubscriptions [] [⟨sample.alice, "stream-1"⟩]).1 = none ∧
    postgres.Repository.AddUserSubscriptions
        (postgres.Repository.AddUserSubscriptions [] [⟨sample.alice, "stream-1"⟩]).2
        [⟨sample.alice, "stream-1"⟩]
      = (none, (postgres.Repository.AddUserSubscriptions [] [⟨sample.alice, "stream-1"⟩]).2) ∧
    (postgres.Repository.AddUserSubscriptions [] [⟨sample.alice, "stream-1"⟩]).2.count
        ⟨sample.alice, "stream-1"⟩ = 1 :=
  subscription_insert_is_idempotent [] [⟨sample.alice, "stream-1"⟩] ⟨sample.alice, "stream-1"⟩
    List.nodup_nil (List.mem_singleton.mpr rfl)

/-! ### Front door -/

namespace cmux

theorem beginsWith_take (conn p : List Nat) (n : Nat) (hp : p.length ≤ n) :
    beginsWith (conn.take n) p = beginsWith conn p := by
  unfold beginsWith
  rw [List.take_take, Nat.min_eq_left hp]

/-- The matcher `HTTP1Fast()` accepts a connection exactly when its bytes begin
with one of the default methods. -/
theorem HTTP1Fast_iff (conn : List Nat) :
    HTTP1Fast [] conn = true ↔
      ∃ m ∈ defaultHTTPMethods, beginsWith conn (goBytes m) = true := by
  have hdepth : (defaultHTTPMethods.map (fun s => (goBytes s).length)).foldl max 0 + 1
      = 8 := by decide
  have hlen : ∀ m ∈ defaultHTTPMethods, (goBytes m).length ≤ 8 := by decide
  unfold HTTP1Fast PrefixMatcher
  simp only [List.append_nil, hdepth, List.any_eq_true]
  constructor
  · rintro ⟨m, hm, hb⟩
    exact ⟨m, hm, by rw [← beginsWith_take conn _ 8 (hlen m hm)]; exact hb⟩
  · rintro ⟨m, hm, hb⟩
    exact ⟨m, hm, by rw [beginsWith_take conn _ 8 (hlen m hm)]; exact hb⟩

end cmux

/-- The client preface is the 24 bytes `PRI * HTTP/2.0 CR LF CR LF SM CR LF CR LF`. -/
theorem cmux.ClientPreface_bytes :
    goBytes cmux.ClientPreface
      = [80, 82, 73, 32, 42, 32, 72, 84, 84, 80, 47, 50, 46, 48, 13, 10, 13, 10, 83, 77,
          13, 10, 13, 10] ∧
    (goBytes cmux.ClientPreface).length = 24 := by
  decide

/-- The dispatch on four connections: an HTTP/2 connection whose frames carry
the field goes to the RPC listener, and is closed when they do not; the preface
with bare line feeds is closed; an HTTP/1 `GET` goes to the HTTP listener. -/
theorem main.serve_examples :
    main.serve (fun _ => true) sample.http2Hello = .grpcListener ∧
    main.serve (fun _ => false) sample.http2Hello = .closed ∧
    main.serve (fun _ => true) sample.lineFeedHello = .closed ∧
    main.serve (fun _ => true) sample.getRequest = .httpListener := by
  decide

/-- C23, as amended: a connection goes to the RPC listener exactly when its
bytes carry the RPC signature; one that does not goes to the HTTP listener
exactly when its bytes begin with one of the methods OPTIONS, GET, HEAD, POST,
PUT, DELETE, TRACE, CONNECT, and is closed, delivered to neither listener,
otherwise. -/
theorem front_door_routes (fieldMatches : List Nat → Bool) (conn : List Nat) :
    (main.serve fieldMatches conn = .grpcListener ↔
      cmux.HTTP2MatchHeaderFieldSendSettings fieldMatches conn = true) ∧
    (main.serve fieldMatches conn = .httpListener ↔
      cmux.HTTP2MatchHeaderFieldSendSettings fieldMatches conn = false ∧
        ∃ m ∈ cmux.defaultHTTPMethods, cmux.beginsWith conn (goBytes m) = true) ∧
    (main.serve fieldMatches conn = .closed ↔
      cmux.HTTP2MatchHeaderFieldSendSettings fieldMatches conn = false ∧
        ¬ ∃ m ∈ cmux.defaultHTTPMethods, cmux.beginsWith conn (goBytes m) = true) := by
  rw [← cmux.HTTP1Fast_iff]
  unfold main.serve
  cases hg : cmux.HTTP2MatchHeaderFieldSendSettings fieldMatches conn <;>
    cases hh : cmux.HTTP1Fast [] conn <;> simp

/-- C23, the claim as stated fails: the first bytes of a TLS handshake do not
carry the RPC signature, whatever the frames after the preface would hold, and
the connection is closed instead of being delivered to the HTTP listener. -/
theorem unmatched_connection_is_closed :
    cmux.HTTP2MatchHeaderFieldSendSettings (fun _ => true) sample.tlsHello = false ∧
    main.serve (fun _ => true) sample.tlsHello = .closed ∧
    main.serve (fun _ => true) sample.tlsHello ≠ .httpListener := by
  decide

end Chat
